import Mathlib

set_option autoImplicit false

namespace Badgecheck

/-- A Python value as stored in the heterogeneous dicts of badgecheck
(tasks, actions, nodes).  `none` models Python `None`; `method` models a
bound-method object (a truthy non-boolean value, which the
`_validate_markdown_text` slip in `tasks/validation.py` returns). -/
inductive Value where
  | none
  | bool (b : Bool)
  | int (n : Int)
  | str (s : String)
  | list (vs : List Value)
  | method

mutual

/-- Python `==` on the modelled values: structural equality.  (The Python
quirk `True == 1` is not modelled; no modelled code path compares a bool
with an int.) -/
def Value.beq : Value → Value → Bool
  | .none, .none => true
  | .bool a, .bool b => a == b
  | .int a, .int b => a == b
  | .str a, .str b => a == b
  | .list xs, .list ys => Value.beqList xs ys
  | .method, .method => true
  | _, _ => false

/-- Elementwise `Value.beq` on lists. -/
def Value.beqList : List Value → List Value → Bool
  | [], [] => true
  | x :: xs, y :: ys => Value.beq x y && Value.beqList xs ys
  | _, _ => false

end

instance : BEq Value := ⟨Value.beq⟩

/-- Python truthiness (`bool(v)`): `None`, `False`, `0`, `""` and `[]` are
falsy; everything else, including a bound method object, is truthy. -/
def Value.truthy : Value → Bool
  | .none => false
  | .bool b => b
  | .int n => n != 0
  | .str s => !s.isEmpty
  | .list vs => !vs.isEmpty
  | .method => true

/-- A Python dict with string keys, as an insertion-ordered association
list.  Python dicts have unique keys; all dicts built here preserve that. -/
abbrev PyDict := List (String × Value)

/-- Exceptions raised by the modelled code.  `validationError` carries the
message of a `ValidationError` (caught inside `validate_property`);
the others model the corresponding Python built-in exceptions and
`TaskPrerequisitesError` / `NotImplementedError`. -/
inductive PyErr where
  | keyError
  | indexError
  | typeError
  | valueError
  | notImplementedError
  | taskPrerequisitesError
  | validationError (msg : String)
  deriving DecidableEq, Repr

/-- `d.get(k)` without default: the first value stored under `k`. -/
def pyLookup : PyDict → String → Option Value
  | [], _ => Option.none
  | p :: rest, k => if p.1 == k then some p.2 else pyLookup rest k

/-- Python `d.get(k)`: the stored value, or `None` when the key is absent. -/
def pyGet (d : PyDict) (k : String) : Value :=
  (pyLookup d k).getD .none

/-- Python `d.get(k, default)`. -/
def pyGetD (d : PyDict) (k : String) (default : Value) : Value :=
  (pyLookup d k).getD default

/-- Python `d[k]`: raises `KeyError` when the key is absent. -/
def pyIndex (d : PyDict) (k : String) : Except PyErr Value :=
  match pyLookup d k with
  | some v => .ok v
  | Option.none => .error .keyError

/-- Python `d[k] = v`: update the first entry with key `k` in place,
else append a new entry (insertion order, as in a Python dict). -/
def pySet : PyDict → String → Value → PyDict
  | [], k, v => [(k, v)]
  | p :: rest, k, v => if p.1 == k then (k, v) :: rest else p :: pySet rest k v

/-- Python `d.keys()` as a list, in insertion order. -/
def pyKeys (d : PyDict) : List String := d.map Prod.fst

/- Action and task type tags.  The modules `actions/action_types.py` and
`tasks/task_types.py` are not part of the analysed sources; the spec's
closed task-kind set gives each tag the string spelling of its name. -/

/-- Modelled from the spec: action type tag from `actions/action_types.py`. -/
def ADD_TASK : String := "ADD_TASK"
/-- Modelled from the spec: action type tag from `actions/action_types.py`. -/
def RESOLVE_TASK : String := "RESOLVE_TASK"
/-- Modelled from the spec: action type tag from `actions/action_types.py`. -/
def UPDATE_TASK : String := "UPDATE_TASK"
/-- Modelled from the spec: action type tag from `actions/action_types.py`. -/
def PATCH_NODE : String := "PATCH_NODE"

/-- Modelled from the spec: task kind tag from `tasks/task_types.py`. -/
def VALIDATE_EXPECTED_NODE_CLASS : String := "VALIDATE_EXPECTED_NODE_CLASS"
/-- Modelled from the spec: task kind tag from `tasks/task_types.py`. -/
def VALIDATE_PROPERTY : String := "VALIDATE_PROPERTY"
/-- Modelled from the spec: task kind tag from `tasks/task_types.py`. -/
def VALIDATE_RDF_TYPE_PROPERTY : String := "VALIDATE_RDF_TYPE_PROPERTY"
/-- Modelled from the spec: task kind tag from `tasks/task_types.py`. -/
def FETCH_HTTP_NODE : String := "FETCH_HTTP_NODE"
/-- Modelled from the spec: task kind tag from `tasks/task_types.py`. -/
def ASSERTION_VERIFICATION_DEPENDENCIES : String := "ASSERTION_VERIFICATION_DEPENDENCIES"
/-- Modelled from the spec: task kind tag from `tasks/task_types.py`. -/
def ASSERTION_TIMESTAMP_CHECKS : String := "ASSERTION_TIMESTAMP_CHECKS"
/-- Modelled from the spec: task kind tag from `tasks/task_types.py`. -/
def CRITERIA_PROPERTY_DEPENDENCIES : String := "CRITERIA_PROPERTY_DEPENDENCIES"
/-- Modelled from the spec: task kind tag from `tasks/task_types.py`. -/
def IDENTITY_OBJECT_PROPERTY_DEPENDENCIES : String := "IDENTITY_OBJECT_PROPERTY_DEPENDENCIES"
/-- Modelled from the spec: task kind tag from `tasks/task_types.py`. -/
def ISSUER_PROPERTY_DEPENDENCIES : String := "ISSUER_PROPERTY_DEPENDENCIES"
/-- Modelled from the spec: task kind tag from `tasks/task_types.py`. -/
def HOSTED_ID_IN_VERIFICATION_SCOPE : String := "HOSTED_ID_IN_VERIFICATION_SCOPE"

/-- Modelled from the spec: `CLASS_VALIDATION_TASKS` from
`tasks/task_types.py` — the class-dependency task kinds of spec section 2
item 6, which `_get_validation_actions` may emit from a task spec. -/
def CLASS_VALIDATION_TASKS : List String :=
  [ASSERTION_VERIFICATION_DEPENDENCIES, ASSERTION_TIMESTAMP_CHECKS,
   CRITERIA_PROPERTY_DEPENDENCIES, IDENTITY_OBJECT_PROPERTY_DEPENDENCIES,
   ISSUER_PROPERTY_DEPENDENCIES, HOSTED_ID_IN_VERIFICATION_SCOPE]

/- ---------------------------------------------------------------------
`reducers/tasks.py`
--------------------------------------------------------------------- -/

/-- `reducers/tasks.py` `_task_to_add_exists(state, action)`.  The branch
guards use `action.get('name')`; inside the first branch `action['name']`
cannot raise since the guard just matched it, so `pyGet` is exact.  The
`[...][0]` index raising `IndexError` on an empty filter result is the
`except IndexError: return False` path, i.e. the function returns whether
the filtered list is non-empty. -/
def task_to_add_exists (state : List PyDict) (action : PyDict) : Bool :=
  if pyGet action "name" == .str VALIDATE_EXPECTED_NODE_CLASS then
    !(state.filter (fun t =>
        pyGet action "name" == pyGet t "name" &&
        pyGet action "node_id" == pyGet t "node_id")).isEmpty
  else if pyGet action "name" == .str VALIDATE_PROPERTY ||
          pyGet action "name" == .str VALIDATE_RDF_TYPE_PROPERTY then
    !(state.filter (fun t =>
        pyGet action "node_id" == pyGet t "node_id" &&
        pyGet action "prop_name" == pyGet t "prop_name")).isEmpty
  else
    false

/-- The comprehension `[t for t in state if t['task_id'] == action['task_id']]`
of `reducers/tasks.py`: each element lookup uses `[...]`, so a missing
`task_id` key on a task or on the action raises `KeyError`. -/
def filterByTaskId (action : PyDict) : List PyDict → Except PyErr (List PyDict)
  | [] => .ok []
  | t :: rest => do
    let tid ← pyIndex t "task_id"
    let aid ← pyIndex action "task_id"
    let r ← filterByTaskId action rest
    pure (if tid == aid then t :: r else r)

/-- `[t for t in state if t['task_id'] == action['task_id']][0]`: the `[0]`
on an empty result raises `IndexError` (which `task_reducer` does NOT
catch; it catches only `KeyError`). -/
def firstTaskById (state : List PyDict) (action : PyDict) : Except PyErr PyDict := do
  match (← filterByTaskId action state) with
  | [] => .error .indexError
  | t :: _ => .ok t

/-- `reducers/tasks.py` `_new_state_with_updated_item(state, item_id, update)`:
every task whose `task_id` (via `.get`) equals `item_id` is replaced by
`update`; the others are kept, in order. -/
def new_state_with_updated_item (state : List PyDict) (item_id : Value)
    (update : PyDict) : List PyDict :=
  state.map (fun t => if pyGet t "task_id" == item_id then update else t)

/-- The loop `for key in [k for k in action.keys() if k not in excluded]:
target[key] = action[key]` used by the `ADD_TASK` and `UPDATE_TASK`
branches of `task_reducer`. -/
def copyPayload (base : PyDict) (action : PyDict) (excluded : List String) : PyDict :=
  ((pyKeys action).filter (fun k => !excluded.contains k)).foldl
    (fun nt k => pySet nt k (pyGet action k)) base

/-- The dispatch part of `task_reducer` (after the `task_counter`
computation), on the already-normalised non-`None` state. -/
def task_reducer_dispatch (state : List PyDict) (task_counter : Int)
    (action : PyDict) : Except PyErr (List PyDict) :=
  if pyGet action "type" == .str ADD_TASK && !task_to_add_exists state action then
    let new_task := copyPayload
      [("task_id", .int task_counter), ("complete", .bool false)] action ["type"]
    .ok (state ++ [new_task])
  else if pyGet action "type" == .str RESOLVE_TASK then
    match firstTaskById state action with
    | .error .keyError => .ok state
    | .error e => .error e
    | .ok task => do
      let update := pySet (pySet (pySet task "complete" (.bool true))
        "success" (pyGet action "success")) "result" (pyGet action "result")
      let aid ← pyIndex action "task_id"
      .ok (new_state_with_updated_item state aid update)
  else if pyGet action "type" == .str UPDATE_TASK then
    match firstTaskById state action with
    | .error .keyError => .ok state
    | .error e => .error e
    | .ok task => do
      let update := copyPayload task action ["type", "task_id"]
      let aid ← pyIndex action "task_id"
      .ok (new_state_with_updated_item state aid update)
  else
    .ok state

/-- `reducers/tasks.py` `task_reducer(state, action)`.  A `None` or empty
state is replaced by `[]` with `task_counter = 1`; otherwise
`task_counter = state[-1]['task_id'] + 1`, which raises `KeyError` when the
last task has no `task_id` and `TypeError` when it is not a number
(Python `True + 1` is `2`, so booleans are accepted). -/
def task_reducer (state : Option (List PyDict)) (action : PyDict) :
    Except PyErr (List PyDict) :=
  match state with
  | Option.none => task_reducer_dispatch [] 1 action
  | some s =>
    match s.getLast? with
    | Option.none => task_reducer_dispatch [] 1 action
    | some last =>
      match pyLookup last "task_id" with
      | Option.none => .error .keyError
      | some (.int n) => task_reducer_dispatch s (n + 1) action
      | some (.bool b) => task_reducer_dispatch s ((if b then 1 else 0) + 1) action
      | some _ => .error .typeError

/- ---------------------------------------------------------------------
Shared value rendering (`str.format` pieces) and `tasks/utils.py` helpers
--------------------------------------------------------------------- -/

mutual

/-- Python `str()` of a value, as interpolated by `str.format`. -/
def Value.pyStr : Value → String
  | .none => "None"
  | .bool b => if b then "True" else "False"
  | .int n => toString n
  | .str s => s
  | .list vs => "[" ++ String.intercalate ", " (Value.pyReprList vs) ++ "]"
  | .method => "<bound method>"

/-- Python `repr()` of a value (list elements render with `repr`). -/
def Value.pyRepr : Value → String
  | .none => "None"
  | .bool b => if b then "True" else "False"
  | .int n => toString n
  | .str s => "'" ++ s ++ "'"
  | .list vs => "[" ++ String.intercalate ", " (Value.pyReprList vs) ++ "]"
  | .method => "<bound method>"

/-- `repr` of each element of a list. -/
def Value.pyReprList : List Value → List String
  | [] => []
  | v :: rest => Value.pyRepr v :: Value.pyReprList rest

end

/-- Modelled from the spec (section 7): `tasks/utils.py` `abbreviate_value`
renders a value and truncates strings over 50 characters with an ellipsis.
No claim theorem depends on the exact cut position. -/
def abbreviate_value (v : Value) : String :=
  let s := v.pyStr
  if s.length > 50 then s.take 47 ++ "..." else s

/-- Modelled from the spec (section 4.4 step 4): `tasks/utils.py`
`is_empty_list` holds of an empty list. -/
def is_empty_list (l : List Value) : Bool := l.isEmpty

/-- Modelled from the spec (section 4.4 step 4): `tasks/utils.py`
`is_null_list` holds when every element is `None`. -/
def is_null_list (l : List Value) : Bool := l.all (fun v => v == Value.none)

/-- A well-formed http/https URL string.  Modelled from the spec
(section 4.1 `URL`): scheme prefix with a non-empty remainder and no
whitespace stands in for the conservative URL parse of `tasks/utils.py`. -/
def isHttpUrlString (s : String) : Bool :=
  ((s.startsWith "http://" && s.length > 7) ||
   (s.startsWith "https://" && s.length > 8)) &&
  s.toList.all (fun c => !c.isWhitespace)

/-- A blank-node identifier `_:b<digits>` (spec section 3). -/
def isBlankNodeId (s : String) : Bool :=
  s.startsWith "_:b" && !(s.drop 3).isEmpty && (s.drop 3).toList.all Char.isDigit

/-- A `urn:uuid:<uuid>` IRI (spec section 4.1 `IRI`). -/
def isUuidUrn (s : String) : Bool :=
  s.startsWith "urn:uuid:" && !(s.drop 9).isEmpty &&
  (s.drop 9).toList.all (fun c => c.isDigit || (c ≥ 'a' && c ≤ 'f') ||
    (c ≥ 'A' && c ≤ 'F') || c == '-')

/-- Modelled from the spec (section 4.1 `IRI`): `tasks/utils.py` `is_iri` —
a string matching an http(s) URL, a blank-node id, or a `urn:uuid:`. -/
def is_iri (v : Value) : Bool :=
  match v with
  | .str s => isHttpUrlString s || isBlankNodeId s || isUuidUrn s
  | _ => false

/-- Modelled from the spec (section 4.1 `URL`): `tasks/utils.py` `is_url`. -/
def is_url (v : Value) : Bool :=
  match v with
  | .str s => isHttpUrlString s
  | _ => false

/-- Modelled from the spec (section 2/3): `state.get_node_by_id` looks up
the node with the given `id` in the NodeStore and raises `IndexError` when
no node matches (`tasks/validation.py` catches exactly `IndexError` around
its calls). -/
def get_node_by_id (state : List PyDict) (node_id : Value) : Except PyErr PyDict :=
  match state.filter (fun n => pyGet n "id" == node_id) with
  | [] => .error .indexError
  | n :: _ => .ok n

/- ---------------------------------------------------------------------
Datetimes (`aniso8601.parse_datetime` and `datetime.now(utc)`)
--------------------------------------------------------------------- -/

/-- A timezone-aware (UTC) datetime as produced by the modelled
`aniso8601.parse_datetime` and by the `datetime.now(utc)` clock reading. -/
structure PyDatetime where
  year : Nat
  month : Nat
  day : Nat
  hour : Nat
  minute : Nat
  second : Nat
  deriving DecidableEq, Repr

/-- A strictly monotone encoding of the lexicographic field order, so that
Python datetime comparison is comparison of `toSecs` (the factors exceed
each field's calendar range). -/
def PyDatetime.toSecs (d : PyDatetime) : Nat :=
  ((((d.year * 13 + d.month) * 32 + d.day) * 25 + d.hour) * 61 + d.minute) * 61 + d.second

/-- Numeric value of a decimal digit character. -/
def digitVal (c : Char) : Nat := c.toNat - 48

/-- Two-digit zero padding. -/
def pad2 (n : Nat) : String := if n < 10 then "0" ++ toString n else toString n

/-- Four-digit zero padding. -/
def pad4 (n : Nat) : String :=
  if n < 10 then "000" ++ toString n
  else if n < 100 then "00" ++ toString n
  else if n < 1000 then "0" ++ toString n
  else toString n

/-- Python `str()` of an aware UTC datetime, as interpolated into result
messages: `YYYY-MM-DD HH:MM:SS+00:00`. -/
def PyDatetime.pyStr (d : PyDatetime) : String :=
  pad4 d.year ++ "-" ++ pad2 d.month ++ "-" ++ pad2 d.day ++ " " ++
  pad2 d.hour ++ ":" ++ pad2 d.minute ++ ":" ++ pad2 d.second ++ "+00:00"

/-- Modelled from the spec (section 4.1 `DATETIME`): `aniso8601.parse_datetime`
is an external library primitive; the model covers the timezone-explicit UTC
subset `YYYY-MM-DDTHH:MM:SSZ` used by the spec's scenarios.  Other strings
raise `ValueError`; a non-string raises `TypeError`, as the library does. -/
def parse_datetime (v : Value) : Except PyErr PyDatetime :=
  match v with
  | .str s =>
    match s.toList with
    | [y1, y2, y3, y4, '-', m1, m2, '-', d1, d2, 'T',
       h1, h2, ':', n1, n2, ':', s1, s2, 'Z'] =>
      if [y1, y2, y3, y4, m1, m2, d1, d2, h1, h2, n1, n2, s1, s2].all Char.isDigit then
        .ok ⟨digitVal y1 * 1000 + digitVal y2 * 100 + digitVal y3 * 10 + digitVal y4,
             digitVal m1 * 10 + digitVal m2,
             digitVal d1 * 10 + digitVal d2,
             digitVal h1 * 10 + digitVal h2,
             digitVal n1 * 10 + digitVal n2,
             digitVal s1 * 10 + digitVal s2⟩
      else .error .valueError
    | _ => .error .valueError
  | _ => .error .typeError

/- ---------------------------------------------------------------------
`tasks/validation.py`: OBClasses, ValueTypes, PrimitiveValueValidator
--------------------------------------------------------------------- -/

namespace OBClasses

def AlignmentObject : String := "AlignmentObject"
def Assertion : String := "Assertion"
def BadgeClass : String := "BadgeClass"
def Criteria : String := "Criteria"
def CryptographicKey : String := "CryptographicKey"
def Extension : String := "Extension"
def Evidence : String := "Evidence"
def IdentityObject : String := "IdentityObject"
def Image : String := "Image"
def Profile : String := "Profile"
def RevocationList : String := "RevocationList"
def VerificationObject : String := "VerificationObject"
def VerificationObjectAssertion : String := "VerificationObjectAssertion"
def VerificationObjectIssuer : String := "VerificationObjectIssuer"

/-- `OBClasses.ALL_CLASSES`, in source order (it omits the two
verification-object subclasses). -/
def ALL_CLASSES : List String :=
  [AlignmentObject, Assertion, BadgeClass, Criteria, CryptographicKey,
   Extension, Evidence, IdentityObject, Image, Profile, RevocationList,
   VerificationObject]

end OBClasses

namespace ValueTypes

def BOOLEAN : String := "BOOLEAN"
def DATA_URI : String := "DATA_URI"
def DATA_URI_OR_URL : String := "DATA_URI_OR_URL"
def DATETIME : String := "DATETIME"
def EMAIL : String := "EMAIL"
def ID : String := "ID"
def IDENTITY_HASH : String := "IDENTITY_HASH"
def IRI : String := "IRI"
def MARKDOWN_TEXT : String := "MARKDOWN_TEXT"
def RDF_TYPE : String := "RDF_TYPE"
def TEXT : String := "TEXT"
def URL : String := "URL"

/-- `ValueTypes.PRIMITIVES`, in source order. -/
def PRIMITIVES : List String :=
  [BOOLEAN, DATETIME, ID, IDENTITY_HASH, IRI, MARKDOWN_TEXT, TEXT, URL]

end ValueTypes

/-- Whether a value is a Python string (`isinstance(value, six.string_types)`). -/
def isStringValue : Value → Bool
  | .str _ => true
  | _ => false

/-- `PrimitiveValueValidator._validate_boolean`. -/
def validate_boolean : Value → Bool
  | .bool _ => true
  | _ => false

/-- `PrimitiveValueValidator._validate_data_uri`: a truthy string whose
scheme is `data` (case-insensitive) with a comma after the scheme, passing
a conservative URI parse (modelled as the absence of whitespace, standing
in for the external `rfc3986.is_valid_uri`). -/
def validate_data_uri (v : Value) : Bool :=
  match v with
  | .str s =>
    !s.isEmpty && s.toList.all (fun c => !c.isWhitespace) &&
    (s.toLower.startsWith "data:") && (s.drop 5).contains ','
  | _ => false

/-- `PrimitiveValueValidator._validate_datetime`: the parse must succeed and
the string must carry an explicit timezone qualifier.  In the modelled
`parse_datetime` subset the qualifier is the trailing `Z`. -/
def validate_datetime (v : Value) : Bool :=
  match parse_datetime v with
  | .error _ => false
  | .ok _ =>
    match v with
    | .str s => s.endsWith "Z"
    | _ => false

/-- Modelled from the spec (section 4.1 `RDF_TYPE`, glossary): JSON-LD
expansion of a type string in the Open Badges v2 context is an external
library primitive (`pyld.jsonld.expand`).  The model expands absolute IRIs
to themselves and known Open Badges vocabulary terms to `openbadges#`
IRIs; unknown terms fail to expand.  No claim theorem depends on the
concrete mapping. -/
def jsonldExpandType (s : String) : Option String :=
  if is_iri (.str s) then some s
  else if OBClasses.ALL_CLASSES.contains s ||
          ["Issuer", "HostedBadge", "SignedBadge", "email", "id", "url",
           "telephone"].contains s then
    some ("https://w3id.org/openbadges#" ++ s)
  else Option.none

/-- `PrimitiveValueValidator._validate_rdf_type`: non-strings and strings
whose expansion yields no valid IRI fail. -/
def validate_rdf_type (v : Value) : Bool :=
  match v with
  | .str s =>
    match jsonldExpandType s with
    | some expanded => is_iri (.str expanded)
    | Option.none => false
  | _ => false

/-- `PrimitiveValueValidator(value_type)(value)` as one step: the
constructor's function-table lookup raises `KeyError` for a value type
with no entry (`ID`, `EMAIL`); otherwise the bound check function is
called.  `_validate_markdown_text` returns the bound method
`_validate_text` itself instead of calling it, so the call result for
`MARKDOWN_TEXT` is a (truthy) method object rather than a boolean. -/
def primitiveValueValidator (value_type : Value) (value : Value) : Except PyErr Value :=
  if value_type == .str ValueTypes.BOOLEAN then .ok (.bool (validate_boolean value))
  else if value_type == .str ValueTypes.DATA_URI then .ok (.bool (validate_data_uri value))
  else if value_type == .str ValueTypes.DATA_URI_OR_URL then
    .ok (.bool (is_url value || validate_data_uri value))
  else if value_type == .str ValueTypes.DATETIME then .ok (.bool (validate_datetime value))
  else if value_type == .str ValueTypes.IDENTITY_HASH then .ok (.bool (isStringValue value))
  else if value_type == .str ValueTypes.IRI then .ok (.bool (is_iri value))
  else if value_type == .str ValueTypes.MARKDOWN_TEXT then .ok Value.method
  else if value_type == .str ValueTypes.RDF_TYPE then .ok (.bool (validate_rdf_type value))
  else if value_type == .str ValueTypes.TEXT then .ok (.bool (isStringValue value))
  else if value_type == .str ValueTypes.URL then .ok (.bool (is_url value))
  else .error .keyError

/- ---------------------------------------------------------------------
Handler results and follow-up actions
--------------------------------------------------------------------- -/

/-- Modelled from the spec (section 3 `Action`): a follow-up action built
by the constructors `actions.tasks.add_task` / `actions.graph.patch_node`
(whose modules are outside the analysed sources) — a tagged record with a
task name plus keyword payload, respectively a node id and a patch dict. -/
inductive HAction where
  | addTask (name : Value) (params : PyDict)
  | patchNode (node_id : Value) (props : PyDict)

/-- Modelled from the spec (section 4.10): `tasks/utils.py` `task_result`
builds the handler outcome triple `(success, message, follow_up_actions)`,
the action list defaulting to empty. -/
structure TaskResult where
  success : Bool
  message : String
  actions : List HAction

/-- Python `node[prop_name]` where the key is itself a dynamic value:
string keys are looked up; any non-string key is absent from the modelled
string-keyed nodes, so it raises `KeyError`. -/
def pyIndexValue (d : PyDict) (k : Value) : Except PyErr Value :=
  match k with
  | .str s => pyIndex d s
  | _ => .error .keyError

/- ---------------------------------------------------------------------
`tasks/validation.py` `validate_property`
--------------------------------------------------------------------- -/

/-- The non-`ID` loop of `validate_property`: each value runs the primitive
validator for `prop_type`; a falsy result raises `ValidationError` with the
formatted message (a `KeyError` from an unknown `prop_type` propagates). -/
def checkPrimitiveValues (prop_type prop_name node_class node_id : Value) :
    List Value → Except PyErr Unit
  | [] => .ok ()
  | val :: rest => do
    let checked ← primitiveValueValidator prop_type val
    if !checked.truthy then
      throw (.validationError (prop_type.pyStr ++ " property " ++ prop_name.pyStr ++
        " value " ++ abbreviate_value val ++ " not valid in " ++ node_class.pyStr ++
        " " ++ node_id.pyStr))
    else checkPrimitiveValues prop_type prop_name node_class node_id rest

/-- The `ID` loop of `validate_property`: IRI check, then local lookup /
remote-URL tolerance / fetch dispatch, collecting follow-up actions in
value order. -/
def checkIdValues (state : List PyDict) (task_meta : PyDict)
    (prop_name node_id : Value) : List Value → Except PyErr (List HAction)
  | [] => .ok []
  | val :: rest =>
    if !is_iri val then
      throw (.validationError ("ID-type property " ++ prop_name.pyStr ++
        " had value `" ++ abbreviate_value val ++ "` not in IRI format in " ++
        node_id.pyStr ++ "."))
    else if !(pyGet task_meta "fetch").truthy then
      match get_node_by_id state val with
      | .error .indexError =>
        if (pyGet task_meta "allow_remote_url").truthy && is_url val then
          checkIdValues state task_meta prop_name node_id rest
        else
          throw (.validationError ("Node " ++ node_id.pyStr ++ " has " ++
            prop_name.pyStr ++ " property value `" ++ abbreviate_value val ++
            "` that appears not to be in URI format" ++
            " or did not correspond to a known local node."))
      | .error e => .error e
      | .ok _target => do
        let acts ← checkIdValues state task_meta prop_name node_id rest
        pure (HAction.addTask (.str VALIDATE_EXPECTED_NODE_CLASS)
          [("node_id", val), ("expected_class", pyGet task_meta "expected_class")] :: acts)
    else do
      let acts ← checkIdValues state task_meta prop_name node_id rest
      pure (HAction.addTask (.str FETCH_HTTP_NODE)
        [("url", val), ("expected_class", pyGet task_meta "expected_class")] :: acts)

/-- `tasks/validation.py` `validate_property(state, task_meta)`. -/
def validate_property (state : List PyDict) (task_meta : PyDict) :
    Except PyErr TaskResult := do
  let node_id := pyGet task_meta "node_id"
  let node ← get_node_by_id state node_id
  let node_class := pyGetD task_meta "node_class" (.str "unknown type node")
  let prop_name := pyGet task_meta "prop_name"
  let prop_type := pyGet task_meta "prop_type"
  let required := (pyGet task_meta "required").truthy
  let allow_many := pyGet task_meta "many"
  match pyIndexValue node prop_name with
  | .error .keyError =>
    if !required then
      pure ⟨true, "Optional property " ++ prop_name.pyStr ++ " not present in " ++
        node_class.pyStr ++ " " ++ node_id.pyStr, []⟩
    else
      pure ⟨false, "Required property " ++ prop_name.pyStr ++ " not present in " ++
        node_class.pyStr ++ " " ++ node_id.pyStr, []⟩
  | .error e => .error e
  | .ok prop_value =>
    let values_to_test := match prop_value with
      | .list vs => vs
      | v => [v]
    if required && (is_empty_list values_to_test || is_null_list values_to_test) then
      pure ⟨false, "Required property " ++ prop_name.pyStr ++ " value " ++
        abbreviate_value prop_value ++ " is not acceptable in " ++
        node_class.pyStr ++ " " ++ node_id.pyStr, []⟩
    else if !required && (is_empty_list values_to_test || is_null_list values_to_test) then
      pure ⟨true, "Optional property " ++ prop_name.pyStr ++ " is null in " ++
        node_class.pyStr ++ " " ++ node_id.pyStr, []⟩
    else if !allow_many.truthy && values_to_test.length > 1 then
      pure ⟨false, "Property " ++ prop_name.pyStr ++ " in " ++ node_class.pyStr ++
        " " ++ node_id.pyStr ++ " has more than the single allowed value.", []⟩
    else if prop_type != .str ValueTypes.ID then
      match checkPrimitiveValues prop_type prop_name node_class node_id values_to_test with
      | .error (.validationError m) => pure ⟨false, m, []⟩
      | .error e => .error e
      | .ok () =>
        pure ⟨true, prop_type.pyStr ++ " property " ++ prop_name.pyStr ++ " value " ++
          abbreviate_value prop_value ++ " valid in " ++ node_class.pyStr ++ " " ++
          node_id.pyStr, []⟩
    else
      match checkIdValues state task_meta prop_name node_id values_to_test with
      | .error (.validationError m) => pure ⟨false, m, []⟩
      | .error e => .error e
      | .ok actions =>
        pure ⟨true, prop_type.pyStr ++ " property " ++ prop_name.pyStr ++ " value " ++
          abbreviate_value prop_value ++ " valid in " ++ node_class.pyStr ++ " " ++
          node_id.pyStr, actions⟩

/- ---------------------------------------------------------------------
`tasks/validation.py` `validate_rdf_type_property`
--------------------------------------------------------------------- -/

/-- Python `val in container` for the `must_contain_one` membership test:
list membership, or substring test when the container is a string.  (A
non-iterable truthy container would raise `TypeError` in Python; no
configured validator spec has one, and no claim theorem exercises it.) -/
def valueInContainer (v : Value) (container : Value) : Bool :=
  match container with
  | .list vs => vs.any (fun x => x == v)
  | .str s =>
    match v with
    | .str sub => sub.isEmpty || (s.splitOn sub).length > 1
    | _ => false
  | _ => false

/-- `tasks/validation.py` `validate_rdf_type_property(state, task_meta)`. -/
def validate_rdf_type_property (state : List PyDict) (task_meta : PyDict) :
    Except PyErr TaskResult := do
  let prop_result ← validate_property state task_meta
  if !prop_result.success then
    pure prop_result
  else do
    let node_id := pyGet task_meta "node_id"
    let node ← get_node_by_id state node_id
    let prop_value := pyGet node "type"
    let defaultV := pyGet task_meta "default"
    let must_contain_one := pyGet task_meta "must_contain_one"
    if !prop_value.truthy && defaultV.truthy then
      pure ⟨true, prop_result.message, [HAction.patchNode node_id [("type", defaultV)]]⟩
    else
      let values_to_test := match prop_value with
        | .list vs => vs
        | v => [v]
      if must_contain_one.truthy &&
         !(values_to_test.any (fun val => valueInContainer val must_contain_one)) then
        pure ⟨false, "Node " ++ node_id.pyStr ++ " of type " ++
          abbreviate_value prop_value ++ " does not have type among allowed values (" ++
          abbreviate_value must_contain_one ++ ")", []⟩
      else
        pure prop_result

/- ---------------------------------------------------------------------
`tasks/validation.py` `ClassValidators` and `_get_validation_actions`
--------------------------------------------------------------------- -/

/-- `ClassValidators(class_name).validators`: the per-class validator spec
tuples, each a keyword dict in source literal order.  A class name with no
branch — including `None` and the `ALL_CLASSES` members CryptographicKey,
Extension, RevocationList and VerificationObject — raises
`NotImplementedError`. -/
def classValidators (class_name : Value) : Except PyErr (List PyDict) :=
  if class_name == .str OBClasses.Assertion then .ok [
    [("prop_name", .str "id"), ("prop_type", .str ValueTypes.IRI), ("required", .bool true)],
    [("prop_name", .str "type"), ("prop_type", .str ValueTypes.RDF_TYPE),
     ("required", .bool true), ("many", .bool true),
     ("must_contain_one", .list [.str "Assertion"])],
    [("prop_name", .str "recipient"), ("prop_type", .str ValueTypes.ID),
     ("expected_class", .str OBClasses.IdentityObject), ("required", .bool true)],
    [("prop_name", .str "badge"), ("prop_type", .str ValueTypes.ID),
     ("expected_class", .str OBClasses.BadgeClass), ("fetch", .bool true),
     ("required", .bool true)],
    [("prop_name", .str "verification"), ("prop_type", .str ValueTypes.ID),
     ("expected_class", .str OBClasses.VerificationObjectAssertion), ("required", .bool true)],
    [("prop_name", .str "issuedOn"), ("prop_type", .str ValueTypes.DATETIME),
     ("required", .bool true)],
    [("prop_name", .str "expires"), ("prop_type", .str ValueTypes.DATETIME),
     ("required", .bool false)],
    [("prop_name", .str "image"), ("prop_type", .str ValueTypes.URL),
     ("required", .bool false)],
    [("prop_name", .str "narrative"), ("prop_type", .str ValueTypes.MARKDOWN_TEXT),
     ("required", .bool false)],
    [("prop_name", .str "evidence"), ("prop_type", .str ValueTypes.ID),
     ("allow_remote_url", .bool true), ("expected_class", .str OBClasses.Evidence),
     ("many", .bool true), ("fetch", .bool false), ("required", .bool false)],
    [("task_type", .str ASSERTION_VERIFICATION_DEPENDENCIES),
     ("prerequisites", .str ISSUER_PROPERTY_DEPENDENCIES)],
    [("task_type", .str ASSERTION_TIMESTAMP_CHECKS)]]
  else if class_name == .str OBClasses.BadgeClass then .ok [
    [("prop_name", .str "id"), ("prop_type", .str ValueTypes.IRI), ("required", .bool true)],
    [("prop_name", .str "type"), ("prop_type", .str ValueTypes.RDF_TYPE),
     ("required", .bool true), ("many", .bool true),
     ("must_contain_one", .list [.str "BadgeClass"])],
    [("prop_name", .str "issuer"), ("prop_type", .str ValueTypes.ID),
     ("expected_class", .str OBClasses.Profile), ("fetch", .bool true),
     ("required", .bool true)],
    [("prop_name", .str "name"), ("prop_type", .str ValueTypes.TEXT), ("required", .bool true)],
    [("prop_name", .str "description"), ("prop_type", .str ValueTypes.TEXT),
     ("required", .bool true)],
    [("prop_name", .str "image"), ("prop_type", .str ValueTypes.DATA_URI_OR_URL),
     ("required", .bool true)],
    [("prop_name", .str "criteria"), ("prop_type", .str ValueTypes.ID),
     ("expected_class", .str OBClasses.Criteria), ("fetch", .bool false),
     ("required", .bool true), ("allow_remote_url", .bool true)],
    [("prop_name", .str "alignment"), ("prop_type", .str ValueTypes.ID),
     ("expected_class", .str OBClasses.AlignmentObject), ("many", .bool true),
     ("fetch", .bool false), ("required", .bool false)],
    [("prop_name", .str "tags"), ("prop_type", .str ValueTypes.TEXT),
     ("many", .bool true), ("required", .bool false)]]
  else if class_name == .str OBClasses.Profile then .ok [
    [("prop_name", .str "id"), ("prop_type", .str ValueTypes.IRI), ("required", .bool true)],
    [("prop_name", .str "type"), ("prop_type", .str ValueTypes.RDF_TYPE),
     ("required", .bool true), ("many", .bool true),
     ("must_contain_one", .list [.str "Issuer", .str "Profile"])],
    [("prop_name", .str "name"), ("prop_type", .str ValueTypes.TEXT), ("required", .bool true)],
    [("prop_name", .str "description"), ("prop_type", .str ValueTypes.TEXT),
     ("required", .bool false)],
    [("prop_name", .str "image"), ("prop_type", .str ValueTypes.DATA_URI_OR_URL),
     ("required", .bool false)],
    [("prop_name", .str "url"), ("prop_type", .str ValueTypes.URL), ("required", .bool true)],
    [("prop_name", .str "email"), ("prop_type", .str ValueTypes.TEXT), ("required", .bool true)],
    [("prop_name", .str "telephone"), ("prop_type", .str ValueTypes.TEXT),
     ("required", .bool false)],
    [("prop_name", .str "verification"), ("prop_type", .str ValueTypes.ID),
     ("expected_class", .str OBClasses.VerificationObjectIssuer), ("fetch", .bool false),
     ("required", .bool false)],
    [("task_type", .str ISSUER_PROPERTY_DEPENDENCIES)]]
  else if class_name == .str OBClasses.AlignmentObject then .ok [
    [("prop_name", .str "type"), ("prop_type", .str ValueTypes.RDF_TYPE),
     ("many", .bool true), ("required", .bool false),
     ("default", .str OBClasses.AlignmentObject)],
    [("prop_name", .str "targetName"), ("prop_type", .str ValueTypes.TEXT),
     ("required", .bool true)],
    [("prop_name", .str "targetUrl"), ("prop_type", .str ValueTypes.URL),
     ("required", .bool true)],
    [("prop_name", .str "description"), ("prop_type", .str ValueTypes.TEXT),
     ("required", .bool false)],
    [("prop_name", .str "targetFramework"), ("prop_type", .str ValueTypes.TEXT),
     ("required", .bool false)],
    [("prop_name", .str "targetCode"), ("prop_type", .str ValueTypes.TEXT),
     ("required", .bool false)]]
  else if class_name == .str OBClasses.Criteria then .ok [
    [("prop_name", .str "type"), ("prop_type", .str ValueTypes.RDF_TYPE),
     ("many", .bool true), ("required", .bool false), ("default", .str OBClasses.Criteria)],
    [("prop_name", .str "id"), ("prop_type", .str ValueTypes.IRI), ("required", .bool false)],
    [("prop_name", .str "narrative"), ("prop_type", .str ValueTypes.MARKDOWN_TEXT),
     ("required", .bool false)],
    [("task_type", .str CRITERIA_PROPERTY_DEPENDENCIES)]]
  else if class_name == .str OBClasses.IdentityObject then .ok [
    [("prop_name", .str "type"), ("prop_type", .str ValueTypes.RDF_TYPE),
     ("required", .bool true), ("many", .bool false),
     ("must_contain_one", .list [.str "id", .str "email", .str "url", .str "telephone"])],
    [("prop_name", .str "identity"), ("prop_type", .str ValueTypes.IDENTITY_HASH),
     ("required", .bool true)],
    [("prop_name", .str "hashed"), ("prop_type", .str ValueTypes.BOOLEAN),
     ("required", .bool true)],
    [("prop_name", .str "salt"), ("prop_type", .str ValueTypes.TEXT),
     ("required", .bool false)],
    [("task_type", .str IDENTITY_OBJECT_PROPERTY_DEPENDENCIES)]]
  else if class_name == .str OBClasses.Evidence then .ok [
    [("prop_name", .str "type"), ("prop_type", .str ValueTypes.RDF_TYPE),
     ("many", .bool true), ("required", .bool false), ("default", .str "Evidence")],
    [("prop_name", .str "id"), ("prop_type", .str ValueTypes.IRI), ("required", .bool false)],
    [("prop_name", .str "narrative"), ("prop_type", .str ValueTypes.MARKDOWN_TEXT),
     ("required", .bool false)],
    [("prop_name", .str "name"), ("prop_type", .str ValueTypes.TEXT), ("required", .bool false)],
    [("prop_name", .str "description"), ("prop_type", .str ValueTypes.TEXT),
     ("required", .bool false)],
    [("prop_name", .str "genre"), ("prop_type", .str ValueTypes.TEXT), ("required", .bool false)],
    [("prop_name", .str "audience"), ("prop_type", .str ValueTypes.TEXT),
     ("required", .bool false)]]
  else if class_name == .str OBClasses.Image then .ok [
    [("prop_name", .str "type"), ("prop_type", .str ValueTypes.RDF_TYPE),
     ("many", .bool true), ("required", .bool false), ("default", .str "schema:ImageObject")],
    [("prop_name", .str "id"), ("prop_type", .str ValueTypes.DATA_URI_OR_URL),
     ("required", .bool true)],
    [("prop_name", .str "caption"), ("prop_type", .str ValueTypes.TEXT),
     ("required", .bool false)],
    [("prop_name", .str "author"), ("prop_type", .str ValueTypes.IRI),
     ("required", .bool false)]]
  else if class_name == .str OBClasses.VerificationObjectAssertion then .ok [
    [("prop_name", .str "type"), ("prop_type", .str ValueTypes.RDF_TYPE),
     ("required", .bool true), ("many", .bool false),
     ("must_contain_one", .list [.str "HostedBadge", .str "SignedBadge"])]]
  else if class_name == .str OBClasses.VerificationObjectIssuer then .ok [
    [("prop_name", .str "type"), ("prop_type", .str ValueTypes.RDF_TYPE),
     ("required", .bool false), ("many", .bool true),
     ("default", .str "VerificationObject")],
    [("prop_name", .str "verificationProperty"), ("prop_type", .str ValueTypes.IRI),
     ("required", .bool false)],
    [("prop_name", .str "startsWith"), ("prop_type", .str ValueTypes.URL),
     ("required", .bool false)],
    [("prop_name", .str "allowedOrigins"), ("prop_type", .str ValueTypes.TEXT),
     ("required", .bool false), ("many", .bool true)]]
  else .error .notImplementedError

/-- Python `v in l` where `l` is a list of strings (`ValueTypes.PRIMITIVES`
or `CLASS_VALIDATION_TASKS` membership): `None` and non-strings are never
members. -/
def valueInStrList (v : Value) (l : List String) : Bool :=
  match v with
  | .str s => l.contains s
  | _ => false

/-- The per-spec action emission of `_get_validation_actions`: a first `if`
for `RDF_TYPE`, then an independent `if prop_type in PRIMITIVES` with its
`elif task_type in CLASS_VALIDATION_TASKS`.  Each emitted `add_task` payload
is `node_id`, `node_class`, then the whole spec dict splatted in. -/
def validationActionsForSpec (node_id node_class : Value) (validator : PyDict) :
    List HAction :=
  (if pyGet validator "prop_type" == .str ValueTypes.RDF_TYPE then
    [HAction.addTask (.str VALIDATE_RDF_TYPE_PROPERTY)
      ([("node_id", node_id), ("node_class", node_class)] ++ validator)]
  else []) ++
  (if valueInStrList (pyGet validator "prop_type") ValueTypes.PRIMITIVES then
    [HAction.addTask (.str VALIDATE_PROPERTY)
      ([("node_id", node_id), ("node_class", node_class)] ++ validator)]
  else if valueInStrList (pyGet validator "task_type") CLASS_VALIDATION_TASKS then
    [HAction.addTask (pyGet validator "task_type")
      ([("node_id", node_id), ("node_class", node_class)] ++ validator)]
  else [])

/-- `tasks/validation.py` `_get_validation_actions(node_id, node_class)`. -/
def get_validation_actions (node_id node_class : Value) :
    Except PyErr (List HAction) := do
  let validators ← classValidators node_class
  pure (validators.foldl
    (fun actions validator => actions ++ validationActionsForSpec node_id node_class validator)
    [])

/-- `tasks/validation.py` `detect_and_validate_node_class(state, task_meta)`:
scan `ALL_CLASSES` for the first element equal to the node's scalar `type`
(`node_class` stays `None` when none matches) and emit the class's
validation actions. -/
def detect_and_validate_node_class (state : List PyDict) (task_meta : PyDict) :
    Except PyErr TaskResult := do
  let node_id := pyGet task_meta "node_id"
  let node ← get_node_by_id state node_id
  let declared_node_type := pyGet node "type"
  let node_class := match OBClasses.ALL_CLASSES.find?
      (fun ob_class => declared_node_type == .str ob_class) with
    | some c => Value.str c
    | Option.none => Value.none
  let actions ← get_validation_actions (pyGet task_meta "node_id") node_class
  pure ⟨true, "Declared type on node " ++ node_id.pyStr ++ " is " ++
    declared_node_type.pyStr, actions⟩

/- ---------------------------------------------------------------------
`tasks/validation.py` `assertion_timestamp_checks`
--------------------------------------------------------------------- -/

/-- The `try` block of `assertion_timestamp_checks`: meta lookup, node
lookup and `issuedOn` parse, whose `IndexError` / `KeyError` / `ValueError`
become `TaskPrerequisitesError`. -/
def timestampPrereqs (state : List PyDict) (task_meta : PyDict) :
    Except PyErr (Value × PyDict × PyDatetime) := do
  let node_id ← pyIndex task_meta "node_id"
  let assertion ← get_node_by_id state node_id
  let issuedRaw ← pyIndexValue assertion (.str "issuedOn")
  let issued_on ← parse_datetime issuedRaw
  pure (node_id, assertion, issued_on)

/-- `tasks/validation.py` `assertion_timestamp_checks(state, task_meta)`.
The source reads the clock with `datetime.now(utc)`; that external input is
the explicit `now` argument here.  The `expires` parse sits outside the
`try`, so its `ValueError` propagates. -/
def assertion_timestamp_checks (state : List PyDict) (task_meta : PyDict)
    (now : PyDatetime) : Except PyErr TaskResult :=
  match timestampPrereqs state task_meta with
  | .error .indexError => .error .taskPrerequisitesError
  | .error .keyError => .error .taskPrerequisitesError
  | .error .valueError => .error .taskPrerequisitesError
  | .error e => .error e
  | .ok (node_id, assertion, issued_on) =>
    if issued_on.toSecs > now.toSecs then
      .ok ⟨false, "Assertion " ++ node_id.pyStr ++ " has issue date " ++
        issued_on.pyStr ++ " in the future.", []⟩
    else if (pyGet assertion "expires").truthy then
      match pyIndexValue assertion (.str "expires") with
      | .error e => .error e
      | .ok expiresRaw =>
        match parse_datetime expiresRaw with
        | .error e => .error e
        | .ok expires =>
          if expires.toSecs < issued_on.toSecs then
            .ok ⟨false, "Assertion " ++ node_id.pyStr ++
              " expiration is prior to issue date.", []⟩
          else if expires.toSecs < now.toSecs then
            .ok ⟨false, "Assertion " ++ node_id.pyStr ++ " expired on " ++
              expiresRaw.pyStr, []⟩
          else
            .ok ⟨true, "Assertion " ++ node_id.pyStr ++
              " was issued and has not expired.", []⟩
    else
      .ok ⟨true, "Assertion " ++ node_id.pyStr ++
        " was issued and has not expired.", []⟩

/- ---------------------------------------------------------------------
Helper lemmas about the dict primitives
--------------------------------------------------------------------- -/

theorem beq_str_iff (v : Value) (s : String) :
    (v == Value.str s) = true ↔ v = Value.str s := by
  cases v <;> simp [BEq.beq, Value.beq]

@[simp] theorem beq_str_str (a b : String) :
    (Value.str a == Value.str b) = (a == b) := rfl

theorem filter_nonempty_iff {α : Type} (p : α → Bool) (l : List α) :
    (!(l.filter p).isEmpty) = true ↔ ∃ x ∈ l, p x = true := by
  induction l with
  | nil => simp
  | cons a as ih =>
    by_cases h : p a = true
    · simp only [List.filter_cons, if_pos h, List.isEmpty_cons, Bool.not_false]
      exact ⟨fun _ => ⟨a, List.mem_cons_self a as, h⟩, fun _ => trivial⟩
    · simp only [List.filter_cons, if_neg h]
      rw [ih]
      constructor
      · rintro ⟨x, hx, hp⟩
        exact ⟨x, List.mem_cons_of_mem a hx, hp⟩
      · rintro ⟨x, hx, hp⟩
        rcases List.mem_cons.mp hx with rfl | hx'
        · exact absurd hp h
        · exact ⟨x, hx', hp⟩

theorem pyLookup_pySet_self (d : PyDict) (k : String) (v : Value) :
    pyLookup (pySet d k v) k = some v := by
  induction d with
  | nil => simp [pySet, pyLookup]
  | cons p rest ih =>
    by_cases h : p.1 = k <;> simp [pySet, pyLookup, h, ih]

theorem pyLookup_pySet_of_ne (d : PyDict) (k k' : String) (v : Value) (h : k ≠ k') :
    pyLookup (pySet d k v) k' = pyLookup d k' := by
  induction d with
  | nil => simp [pySet, pyLookup, h]
  | cons p rest ih =>
    by_cases hp : p.1 = k
    · simp [pySet, pyLookup, hp, h]
    · by_cases hp' : p.1 = k' <;>
        simp [pySet, pyLookup, hp, hp', Ne.symm h, ih]

theorem pyLookup_foldl_pySet (action : PyDict) (ks : List String) (base : PyDict)
    (k : String) (hk : k ∉ ks) :
    pyLookup (ks.foldl (fun nt kk => pySet nt kk (pyGet action kk)) base) k =
      pyLookup base k := by
  induction ks generalizing base with
  | nil => rfl
  | cons a as ih =>
    have hka : a ≠ k := fun h => hk (h ▸ List.mem_cons_self a as)
    have hkas : k ∉ as := fun h => hk (List.mem_cons_of_mem a h)
    simp only [List.foldl_cons]
    rw [ih _ hkas, pyLookup_pySet_of_ne _ _ _ _ hka]

theorem pyLookup_copyPayload (base action : PyDict) (excluded : List String)
    (k : String) (hk : ¬ k ∈ pyKeys action) :
    pyLookup (copyPayload base action excluded) k = pyLookup base k := by
  unfold copyPayload
  exact pyLookup_foldl_pySet action _ base k
    (fun h => hk (List.mem_of_mem_filter h))

theorem pyGet_eq_of_lookup {d : PyDict} {k : String} {v : Value}
    (h : pyLookup d k = some v) : pyGet d k = v := by
  simp [pyGet, h]

theorem lookup_of_pyGet {d : PyDict} {k : String} {v : Value}
    (h : pyGet d k = v) (hv : v ≠ Value.none) : pyLookup d k = some v := by
  unfold pyGet at h
  cases hl : pyLookup d k with
  | none =>
    rw [hl] at h
    simp at h
    exact absurd h.symm hv
  | some w =>
    rw [hl] at h
    simp at h
    rw [h]

/- ---------------------------------------------------------------------
C4 — RESOLVE_TASK / UPDATE_TASK on an unknown task_id
--------------------------------------------------------------------- -/

/-- C4: the claim says a `RESOLVE_TASK` or `UPDATE_TASK` action whose
`task_id` matches no task leaves the state unchanged without raising.  The
code instead raises: `[t for t in state if t['task_id'] == action['task_id']][0]`
raises `IndexError` on an empty match, and the `except` clause catches only
`KeyError`.  Evaluating the reducer at a one-task state and an unmatched
`task_id` yields `IndexError` for both action types. -/
theorem c4_unknown_task_id_raises :
    task_reducer (some [[("task_id", Value.int 1), ("complete", Value.bool false)]])
      [("type", Value.str RESOLVE_TASK), ("task_id", Value.int 2)] =
      .error PyErr.indexError ∧
    task_reducer (some [[("task_id", Value.int 1), ("complete", Value.bool false)]])
      [("type", Value.str UPDATE_TASK), ("task_id", Value.int 2),
       ("complete", Value.bool true)] =
      .error PyErr.indexError :=
  ⟨rfl, rfl⟩

/- ---------------------------------------------------------------------
C6 — the MARKDOWN_TEXT primitive validator
--------------------------------------------------------------------- -/

/-- C6: the claim says the `MARKDOWN_TEXT` validator returns a boolean that
is true iff the value is a string.  In the code `_validate_markdown_text`
returns the bound method `_validate_text` instead of calling it, so the
call returns a truthy non-boolean for every value: the non-string `42`
"passes", and a whole `validate_property` run on a `MARKDOWN_TEXT` property
holding `42` succeeds. -/
theorem c6_markdown_text_slip :
    primitiveValueValidator (.str ValueTypes.MARKDOWN_TEXT) (.int 42) =
      .ok Value.method ∧
    Value.method.truthy = true ∧
    isStringValue (.int 42) = false ∧
    validate_property [[("id", .str "http://e/c1"), ("narrative", .int 42)]]
      [("node_id", .str "http://e/c1"), ("prop_name", .str "narrative"),
       ("prop_type", .str ValueTypes.MARKDOWN_TEXT), ("required", .bool true)] =
      .ok ⟨true,
        "MARKDOWN_TEXT property narrative value 42 valid in unknown type node http://e/c1",
        []⟩ :=
  ⟨rfl, rfl, rfl, rfl⟩

/- ---------------------------------------------------------------------
C2 — task_id assignment under ADD_TASK (counterexample part)
--------------------------------------------------------------------- -/

/-- C2 counterexample: the claim assigns `task_id = max + 1` (so `1` on the
empty queue) to every appended task, for every sequence of `ADD_TASK`
actions.  The reducer copies every payload field except `type` onto the new
task AFTER assigning `task_id`, so an `ADD_TASK` carrying a `task_id` key
overwrites the assigned value: from the empty queue the appended task gets
`task_id = 99`, not `1`. -/
theorem c2_counterexample :
    task_reducer (some []) [("type", Value.str ADD_TASK),
      ("name", Value.str FETCH_HTTP_NODE), ("task_id", Value.int 99)] =
      .ok [[("task_id", Value.int 99), ("complete", Value.bool false),
            ("name", Value.str FETCH_HTTP_NODE)]] ∧
    (pyGet [("task_id", Value.int 99), ("complete", Value.bool false),
            ("name", Value.str FETCH_HTTP_NODE)] "task_id" == Value.int 1) = false :=
  ⟨rfl, rfl⟩

/- ---------------------------------------------------------------------
C3 — monotonicity of `complete` (counterexample part)
--------------------------------------------------------------------- -/

/-- C3 counterexample: the claim says no subsequent action, including
`UPDATE_TASK`, returns a completed task's `complete` flag to false.  An
`UPDATE_TASK` copies every payload field except `type` and `task_id` onto
the task, `complete` included: updating a completed task with a payload
`complete = False` resets the flag. -/
theorem c3_counterexample :
    task_reducer (some [[("task_id", Value.int 1), ("complete", Value.bool true)]])
      [("type", Value.str UPDATE_TASK), ("task_id", Value.int 1),
       ("complete", Value.bool false)] =
      .ok [[("task_id", Value.int 1), ("complete", Value.bool false)]] :=
  rfl

/- ---------------------------------------------------------------------
C7 — detect_and_validate_node_class (counterexample part)
--------------------------------------------------------------------- -/

/-- C7 counterexample: the claim says that for a node whose declared type
matches no `ALL_CLASSES` element the handler emits the validation actions
for a null `node_class` and succeeds.  `ClassValidators(None)` has no
branch for `None`, so `NotImplementedError` is raised instead of a
successful result. -/
theorem c7_counterexample :
    detect_and_validate_node_class
      [[("id", Value.str "n1"), ("type", Value.str "SomethingElse")]]
      [("node_id", Value.str "n1")] = .error PyErr.notImplementedError :=
  rfl

/- ---------------------------------------------------------------------
C5 — handler determinism (counterexample part)
--------------------------------------------------------------------- -/

/-- A fixed NodeStore with one assertion issued mid-2020, for the clock
dependence of `assertion_timestamp_checks`. -/
def c5state : List PyDict :=
  [[("id", Value.str "http://e/a1"), ("issuedOn", Value.str "2020-06-01T00:00:00Z")]]

/-- The task metadata addressing that assertion. -/
def c5meta : PyDict := [("node_id", Value.str "http://e/a1")]

/-- The success flag of a handler outcome, `none` when the handler raised. -/
def resultSuccess : Except PyErr TaskResult → Option Bool
  | .ok r => some r.success
  | .error _ => Option.none

/-- C5 counterexample: the claim says every handler is a pure function of
`(state, task_meta)`, `assertion_timestamp_checks` in particular reading no
external mutable input.  The handler reads the clock (`datetime.now(utc)`):
on the same state and metadata it fails before the issue date and succeeds
after it, so two invocations differ. -/
theorem c5_counterexample :
    resultSuccess (assertion_timestamp_checks c5state c5meta ⟨2020, 1, 1, 0, 0, 0⟩) =
      some false ∧
    resultSuccess (assertion_timestamp_checks c5state c5meta ⟨2021, 1, 1, 0, 0, 0⟩) =
      some true ∧
    assertion_timestamp_checks c5state c5meta ⟨2020, 1, 1, 0, 0, 0⟩ ≠
      assertion_timestamp_checks c5state c5meta ⟨2021, 1, 1, 0, 0, 0⟩ := by
  refine ⟨rfl, rfl, fun h => ?_⟩
  have h2 : (some false : Option Bool) = some true := by
    calc (some false : Option Bool)
        = resultSuccess (assertion_timestamp_checks c5state c5meta ⟨2020, 1, 1, 0, 0, 0⟩) := rfl
      _ = resultSuccess (assertion_timestamp_checks c5state c5meta ⟨2021, 1, 1, 0, 0, 0⟩) :=
          congrArg resultSuccess h
      _ = some true := rfl
  simp at h2

/- ---------------------------------------------------------------------
C1 — the deduplication predicate
--------------------------------------------------------------------- -/

/-- The duplicate condition exactly as the claim states it: for
`VALIDATE_EXPECTED_NODE_CLASS`, some existing task has the same `name` and
the same `node_id`; for `VALIDATE_PROPERTY` or `VALIDATE_RDF_TYPE_PROPERTY`,
some existing task (of any kind) has the same `node_id` and the same
`prop_name`; no other kind is ever a duplicate.  "Same" is Python `==` on
the `.get` results. -/
def dedupSpec (state : List PyDict) (action : PyDict) : Prop :=
  (pyGet action "name" = Value.str VALIDATE_EXPECTED_NODE_CLASS ∧
    ∃ t ∈ state, (pyGet action "name" == pyGet t "name") = true ∧
                 (pyGet action "node_id" == pyGet t "node_id") = true) ∨
  ((pyGet action "name" = Value.str VALIDATE_PROPERTY ∨
    pyGet action "name" = Value.str VALIDATE_RDF_TYPE_PROPERTY) ∧
    ∃ t ∈ state, (pyGet action "node_id" == pyGet t "node_id") = true ∧
                 (pyGet action "prop_name" == pyGet t "prop_name") = true)

/-- The `task_counter` computation of `task_reducer` succeeds: the state is
empty, or its last task has an int (or bool) `task_id`. -/
def counterOk (state : List PyDict) : Bool :=
  match state.getLast? with
  | Option.none => true
  | some last =>
    match pyLookup last "task_id" with
    | some (.int _) => true
    | some (.bool _) => true
    | _ => false

/-- C1: the reducer's deduplication predicate decides "duplicate" exactly
as the claim describes (first conjunct), and a duplicate `ADD_TASK` leaves
the state unchanged (second conjunct; the `task_counter` read of the last
task's `task_id` must succeed for the reducer to reach the dispatch). -/
theorem c1_dedup_exact (state : List PyDict) (action : PyDict)
    (hadd : pyGet action "type" = Value.str ADD_TASK)
    (hctr : counterOk state = true) :
    (task_to_add_exists state action = true ↔ dedupSpec state action) ∧
    (task_to_add_exists state action = true →
      task_reducer (some state) action = .ok state) := by
  have hdispatch : ∀ c : Int, task_to_add_exists state action = true →
      task_reducer_dispatch state c action = .ok state := by
    intro c hex
    have hb : (pyGet action "type" == Value.str ADD_TASK) = true :=
      (beq_str_iff _ _).mpr hadd
    have hr : (Value.str ADD_TASK == Value.str RESOLVE_TASK) = false := rfl
    have hu : (Value.str ADD_TASK == Value.str UPDATE_TASK) = false := rfl
    simp [task_reducer_dispatch, hb, hex, hadd, hr, hu]
  constructor
  · unfold task_to_add_exists dedupSpec
    by_cases h1 : pyGet action "name" = Value.str VALIDATE_EXPECTED_NODE_CLASS
    · have hb1 : (pyGet action "name" == Value.str VALIDATE_EXPECTED_NODE_CLASS) = true :=
        (beq_str_iff _ _).mpr h1
      simp [hb1, filter_nonempty_iff, h1, Bool.and_eq_true,
        VALIDATE_EXPECTED_NODE_CLASS, VALIDATE_PROPERTY, VALIDATE_RDF_TYPE_PROPERTY]
    · have hb1 : (pyGet action "name" == Value.str VALIDATE_EXPECTED_NODE_CLASS) = false := by
        cases hb : (pyGet action "name" == Value.str VALIDATE_EXPECTED_NODE_CLASS)
        · rfl
        · exact absurd ((beq_str_iff _ _).mp hb) h1
      by_cases h2 : pyGet action "name" = Value.str VALIDATE_PROPERTY ∨
          pyGet action "name" = Value.str VALIDATE_RDF_TYPE_PROPERTY
      · have hb2 : (pyGet action "name" == Value.str VALIDATE_PROPERTY ||
            pyGet action "name" == Value.str VALIDATE_RDF_TYPE_PROPERTY) = true := by
          rcases h2 with h2 | h2
          · simp [(beq_str_iff _ _).mpr h2]
          · simp [(beq_str_iff _ _).mpr h2]
        simp [hb1, hb2, filter_nonempty_iff, h1, h2, Bool.and_eq_true]
      · have hb2 : (pyGet action "name" == Value.str VALIDATE_PROPERTY ||
            pyGet action "name" == Value.str VALIDATE_RDF_TYPE_PROPERTY) = false := by
          cases hp : (pyGet action "name" == Value.str VALIDATE_PROPERTY)
          · cases hq : (pyGet action "name" == Value.str VALIDATE_RDF_TYPE_PROPERTY)
            · rfl
            · exact absurd (Or.inr ((beq_str_iff _ _).mp hq)) h2
          · exact absurd (Or.inl ((beq_str_iff _ _).mp hp)) h2
        simp [hb1, hb2, h1, h2]
  · intro hex
    have hred : task_reducer (some state) action =
        (match state.getLast? with
          | Option.none => task_reducer_dispatch [] 1 action
          | some last =>
            match pyLookup last "task_id" with
            | Option.none => Except.error PyErr.keyError
            | some (.int n) => task_reducer_dispatch state (n + 1) action
            | some (.bool b) =>
                task_reducer_dispatch state ((if b then 1 else 0) + 1) action
            | some _ => Except.error PyErr.typeError) := rfl
    rw [hred]
    cases hlast : state.getLast? with
    | none =>
      have hnil : state = [] := List.getLast?_eq_none_iff.mp hlast
      subst hnil
      simp [task_to_add_exists] at hex
    | some last =>
      unfold counterOk at hctr
      rw [hlast] at hctr
      dsimp only at hctr ⊢
      cases hlook : pyLookup last "task_id" with
      | none => rw [hlook] at hctr; simp at hctr
      | some v =>
        rw [hlook] at hctr
        cases v with
        | int n => exact hdispatch _ hex
        | bool b => exact hdispatch _ hex
        | none => simp at hctr
        | str s => simp at hctr
        | list vs => simp at hctr
        | method => simp at hctr

/-- A queue holding one `VALIDATE_PROPERTY` task for `(n1, name)`. -/
def c1state : List PyDict :=
  [[("task_id", Value.int 1), ("complete", Value.bool false),
    ("name", Value.str VALIDATE_PROPERTY), ("node_id", Value.str "n1"),
    ("prop_name", Value.str "name")]]

/-- An `ADD_TASK` for a `VALIDATE_RDF_TYPE_PROPERTY` task on the same
`(node_id, prop_name)` — a duplicate across kinds. -/
def c1action : PyDict :=
  [("type", Value.str ADD_TASK), ("name", Value.str VALIDATE_RDF_TYPE_PROPERTY),
   ("node_id", Value.str "n1"), ("prop_name", Value.str "name")]

/-- Witness for C1 at a concrete duplicate: the cross-kind duplicate is
detected and the reducer returns the state unchanged. -/
theorem c1_dedup_exact_witness :
    pyGet c1action "type" = Value.str ADD_TASK ∧
    counterOk c1state = true ∧
    task_to_add_exists c1state c1action = true ∧
    task_reducer (some c1state) c1action = .ok c1state := by
  have h := c1_dedup_exact c1state c1action rfl rfl
  exact ⟨rfl, rfl, rfl, h.2 rfl⟩

/- ---------------------------------------------------------------------
C8 — validate_property on an absent property
--------------------------------------------------------------------- -/

/-- C8: for a `validate_property` task whose node exists and whose named
property is absent, a required property fails with
"Required property X not present …" and an optional one succeeds with
"Optional property X not present …". -/
theorem c8_absent_property (state : List PyDict) (task_meta : PyDict) (node : PyDict)
    (hnode : get_node_by_id state (pyGet task_meta "node_id") = .ok node)
    (habsent : pyIndexValue node (pyGet task_meta "prop_name") = .error .keyError) :
    ((pyGet task_meta "required").truthy = true →
      validate_property state task_meta = .ok ⟨false,
        "Required property " ++ (pyGet task_meta "prop_name").pyStr ++
        " not present in " ++
        (pyGetD task_meta "node_class" (.str "unknown type node")).pyStr ++ " " ++
        (pyGet task_meta "node_id").pyStr, []⟩) ∧
    ((pyGet task_meta "required").truthy = false →
      validate_property state task_meta = .ok ⟨true,
        "Optional property " ++ (pyGet task_meta "prop_name").pyStr ++
        " not present in " ++
        (pyGetD task_meta "node_class" (.str "unknown type node")).pyStr ++ " " ++
        (pyGet task_meta "node_id").pyStr, []⟩) := by
  constructor <;> intro hreq <;>
    simp [validate_property, hnode, habsent, hreq, Bind.bind, Except.bind,
      Pure.pure, Except.pure]

/-- A BadgeClass node lacking `name`. -/
def c8state : List PyDict :=
  [[("id", Value.str "http://e/bc1"), ("type", Value.str "BadgeClass")]]

/-- The `name` validation task, required. -/
def c8metaReq : PyDict :=
  [("node_id", Value.str "http://e/bc1"), ("prop_name", Value.str "name"),
   ("prop_type", Value.str ValueTypes.TEXT), ("required", Value.bool true),
   ("node_class", Value.str "BadgeClass")]

/-- The `name` validation task, not required. -/
def c8metaOpt : PyDict :=
  [("node_id", Value.str "http://e/bc1"), ("prop_name", Value.str "name"),
   ("prop_type", Value.str ValueTypes.TEXT), ("required", Value.bool false),
   ("node_class", Value.str "BadgeClass")]

/-- Witness for C8, at the spec's scenario S2 (BadgeClass lacking `name`). -/
theorem c8_absent_property_witness :
    validate_property c8state c8metaReq = .ok ⟨false,
      "Required property name not present in BadgeClass http://e/bc1", []⟩ ∧
    validate_property c8state c8metaOpt = .ok ⟨true,
      "Optional property name not present in BadgeClass http://e/bc1", []⟩ :=
  ⟨(c8_absent_property c8state c8metaReq
      [("id", Value.str "http://e/bc1"), ("type", Value.str "BadgeClass")] rfl rfl).1 rfl,
   (c8_absent_property c8state c8metaOpt
      [("id", Value.str "http://e/bc1"), ("type", Value.str "BadgeClass")] rfl rfl).2 rfl⟩

/- ---------------------------------------------------------------------
C9 — validate_rdf_type_property default application
--------------------------------------------------------------------- -/

/-- C9: when the underlying `validate_property` check succeeds, the node's
`type` is missing (falsy) and a default is configured, the handler succeeds
with exactly one follow-up `PATCH_NODE(node_id, {type: default})` and skips
the `must_contain_one` check entirely. -/
theorem c9_rdf_type_default_patch (state : List PyDict) (task_meta : PyDict)
    (r : TaskResult) (node : PyDict)
    (hprop : validate_property state task_meta = .ok r)
    (hsucc : r.success = true)
    (hnode : get_node_by_id state (pyGet task_meta "node_id") = .ok node)
    (htype : (pyGet node "type").truthy = false)
    (hdef : (pyGet task_meta "default").truthy = true) :
    validate_rdf_type_property state task_meta =
      .ok ⟨true, r.message, [HAction.patchNode (pyGet task_meta "node_id")
        [("type", pyGet task_meta "default")]]⟩ := by
  simp [validate_rdf_type_property, hprop, hsucc, hnode, htype, hdef,
    Bind.bind, Except.bind, Pure.pure, Except.pure]

/-- A Criteria node with `id` and `narrative` but no `type` (scenario S3). -/
def c9state : List PyDict :=
  [[("id", Value.str "_:b2"), ("narrative", Value.str "Do the thing")]]

/-- The Criteria `type` validation task with `default = Criteria`. -/
def c9meta : PyDict :=
  [("node_id", Value.str "_:b2"), ("prop_name", Value.str "type"),
   ("prop_type", Value.str ValueTypes.RDF_TYPE), ("many", Value.bool true),
   ("required", Value.bool false), ("default", Value.str "Criteria"),
   ("node_class", Value.str "Criteria")]

/-- Witness for C9 at scenario S3: one `PATCH_NODE` setting the default. -/
theorem c9_rdf_type_default_patch_witness :
    validate_rdf_type_property c9state c9meta =
      .ok ⟨true, "Optional property type not present in Criteria _:b2",
        [HAction.patchNode (Value.str "_:b2") [("type", Value.str "Criteria")]]⟩ :=
  c9_rdf_type_default_patch c9state c9meta
    ⟨true, "Optional property type not present in Criteria _:b2", []⟩
    [("id", Value.str "_:b2"), ("narrative", Value.str "Do the thing")]
    rfl rfl rfl rfl rfl

/- ---------------------------------------------------------------------
C10 — DATA_URI_OR_URL property specs produce no validation task
--------------------------------------------------------------------- -/

/-- Whether an emitted follow-up action is an `ADD_TASK` whose payload
names the given property. -/
def actionMentionsProp (p : String) : HAction → Bool
  | .addTask _ params => pyGet params "prop_name" == Value.str p
  | .patchNode _ _ => false

/-- `_get_validation_actions` for the class emits no task naming the
property. -/
def noActionForProp (node_id : Value) (node_class : String) (p : String) : Bool :=
  match get_validation_actions node_id (.str node_class) with
  | .ok acts => acts.all (fun a => !actionMentionsProp p a)
  | .error _ => false

/-- The class declares a `DATA_URI_OR_URL` property spec with the given
name and `required` flag. -/
def hasDataUriOrUrlSpec (node_class p : String) (req : Bool) : Bool :=
  match classValidators (.str node_class) with
  | .ok vs => vs.any (fun v =>
      pyGet v "prop_name" == Value.str p &&
      pyGet v "prop_type" == Value.str ValueTypes.DATA_URI_OR_URL &&
      pyGet v "required" == Value.bool req)
  | .error _ => false

/-- C10: the required BadgeClass `image`, optional Profile `image` and
required Image `id` specs all have `prop_type = DATA_URI_OR_URL`, yet
`_get_validation_actions` emits no task for them; in general a spec whose
`prop_type` is `DATA_URI_OR_URL` and which carries no `task_type` yields no
action at all, since `DATA_URI_OR_URL` is neither `RDF_TYPE` nor a
member of `PRIMITIVES`. -/
theorem c10_data_uri_or_url_never_validated (node_id : Value) :
    hasDataUriOrUrlSpec OBClasses.BadgeClass "image" true = true ∧
    hasDataUriOrUrlSpec OBClasses.Profile "image" false = true ∧
    hasDataUriOrUrlSpec OBClasses.Image "id" true = true ∧
    noActionForProp node_id OBClasses.BadgeClass "image" = true ∧
    noActionForProp node_id OBClasses.Profile "image" = true ∧
    noActionForProp node_id OBClasses.Image "id" = true ∧
    (∀ (node_class : Value) (validator : PyDict),
      pyGet validator "prop_type" = Value.str ValueTypes.DATA_URI_OR_URL →
      pyGet validator "task_type" = Value.none →
      validationActionsForSpec node_id node_class validator = []) := by
  refine ⟨rfl, rfl, rfl, rfl, rfl, rfl, ?_⟩
  intro node_class validator h1 h2
  have hrdf : (Value.str ValueTypes.DATA_URI_OR_URL ==
      Value.str ValueTypes.RDF_TYPE) = false := rfl
  have hprim : valueInStrList (Value.str ValueTypes.DATA_URI_OR_URL)
      ValueTypes.PRIMITIVES = false := rfl
  have htask : valueInStrList Value.none CLASS_VALIDATION_TASKS = false := rfl
  simp [validationActionsForSpec, h1, h2, hrdf, hprim, htask]

/-- Witness for C10 at a concrete node id, both through the full
BadgeClass action list and at the single `image` spec. -/
theorem c10_witness :
    noActionForProp (Value.str "http://e/bc1") OBClasses.BadgeClass "image" = true ∧
    validationActionsForSpec (Value.str "http://e/bc1") (Value.str "BadgeClass")
      [("prop_name", Value.str "image"),
       ("prop_type", Value.str ValueTypes.DATA_URI_OR_URL),
       ("required", Value.bool true)] = [] :=
  ⟨(c10_data_uri_or_url_never_validated (Value.str "http://e/bc1")).2.2.2.1,
   (c10_data_uri_or_url_never_validated (Value.str "http://e/bc1")).2.2.2.2.2.2
     (Value.str "BadgeClass") _ rfl rfl⟩

/- ---------------------------------------------------------------------
C7 — detect_and_validate_node_class (amended part)
--------------------------------------------------------------------- -/

/-- C7 amended: `node_class` is the first `ALL_CLASSES` element equal to
the node's scalar `type`, or null.  When the matched class has an
implemented validator branch, the handler emits
`get_validation_actions(node_id, node_class)` and succeeds with a
descriptive message; when no class matches (null `node_class`), or the
matched class has no implemented branch, `NotImplementedError` propagates
instead of a successful result. -/
theorem c7_amended_detect (state : List PyDict) (task_meta : PyDict) (node : PyDict)
    (hnode : get_node_by_id state (pyGet task_meta "node_id") = .ok node) :
    (∀ c : String, OBClasses.ALL_CLASSES.find?
        (fun ob_class => pyGet node "type" == Value.str ob_class) = some c →
      (∃ vs, classValidators (.str c) = .ok vs) →
      ∃ acts, get_validation_actions (pyGet task_meta "node_id") (.str c) = .ok acts ∧
        detect_and_validate_node_class state task_meta = .ok ⟨true,
          "Declared type on node " ++ (pyGet task_meta "node_id").pyStr ++ " is " ++
          (pyGet node "type").pyStr, acts⟩) ∧
    (OBClasses.ALL_CLASSES.find?
        (fun ob_class => pyGet node "type" == Value.str ob_class) = Option.none →
      detect_and_validate_node_class state task_meta = .error PyErr.notImplementedError) ∧
    (∀ c : String, OBClasses.ALL_CLASSES.find?
        (fun ob_class => pyGet node "type" == Value.str ob_class) = some c →
      classValidators (.str c) = .error PyErr.notImplementedError →
      detect_and_validate_node_class state task_meta = .error PyErr.notImplementedError) := by
  refine ⟨?_, ?_, ?_⟩
  · rintro c hfind ⟨vs, hcv⟩
    have hga : get_validation_actions (pyGet task_meta "node_id") (.str c) =
        .ok (vs.foldl (fun actions validator =>
          actions ++ validationActionsForSpec (pyGet task_meta "node_id")
            (.str c) validator) []) := by
      simp [get_validation_actions, hcv, Bind.bind, Except.bind, Pure.pure, Except.pure]
    refine ⟨_, hga, ?_⟩
    simp [detect_and_validate_node_class, hnode, hfind, hga,
      Bind.bind, Except.bind, Pure.pure, Except.pure]
  · intro hfind
    have hnone : classValidators Value.none = .error PyErr.notImplementedError := rfl
    simp [detect_and_validate_node_class, hnode, hfind, get_validation_actions, hnone,
      Bind.bind, Except.bind, Pure.pure, Except.pure]
  · intro c hfind hcv
    simp [detect_and_validate_node_class, hnode, hfind, get_validation_actions, hcv,
      Bind.bind, Except.bind, Pure.pure, Except.pure]

/-- An assertion node declared as `Assertion`. -/
def c7state : List PyDict :=
  [[("id", Value.str "http://e/a1"), ("type", Value.str "Assertion")]]

/-- The detection task metadata for that node. -/
def c7meta : PyDict := [("node_id", Value.str "http://e/a1")]

/-- Witness for C7 (amended) at a concrete Assertion-typed node. -/
theorem c7_amended_detect_witness :
    ∃ acts, get_validation_actions (Value.str "http://e/a1") (Value.str "Assertion") =
        .ok acts ∧
      detect_and_validate_node_class c7state c7meta = .ok ⟨true,
        "Declared type on node http://e/a1 is Assertion", acts⟩ :=
  (c7_amended_detect c7state c7meta
      [("id", Value.str "http://e/a1"), ("type", Value.str "Assertion")] rfl).1
    "Assertion" rfl ⟨_, rfl⟩

/- ---------------------------------------------------------------------
C5 — clock dependence of assertion_timestamp_checks (amended part)
--------------------------------------------------------------------- -/

/-- C5 amended: `assertion_timestamp_checks` is a deterministic function of
`(state, task_meta, now)`, and it depends on the clock reading only through
the comparisons `issuedOn > now` and `expires < now`: whenever two clock
readings agree on those comparisons the outcomes coincide. -/
theorem c5_amended_clock_dependence (state : List PyDict) (task_meta : PyDict)
    (now₁ now₂ : PyDatetime)
    (hobs : ∀ node_id assertion issued_on,
      timestampPrereqs state task_meta = .ok (node_id, assertion, issued_on) →
      ((issued_on.toSecs > now₁.toSecs ↔ issued_on.toSecs > now₂.toSecs) ∧
       ∀ expiresRaw expires,
         pyIndexValue assertion (.str "expires") = .ok expiresRaw →
         parse_datetime expiresRaw = .ok expires →
         (expires.toSecs < now₁.toSecs ↔ expires.toSecs < now₂.toSecs))) :
    assertion_timestamp_checks state task_meta now₁ =
      assertion_timestamp_checks state task_meta now₂ := by
  unfold assertion_timestamp_checks
  cases hts : timestampPrereqs state task_meta with
  | error e => cases e <;> rfl
  | ok trip =>
    obtain ⟨node_id, assertion, issued_on⟩ := trip
    obtain ⟨h1, h2⟩ := hobs node_id assertion issued_on hts
    dsimp only
    by_cases hgt : issued_on.toSecs > now₁.toSecs
    · rw [if_pos hgt, if_pos (h1.mp hgt)]
    · rw [if_neg hgt, if_neg (fun h => hgt (h1.mpr h))]
      by_cases hexp : (pyGet assertion "expires").truthy = true
      · rw [if_pos hexp, if_pos hexp]
        cases hr : pyIndexValue assertion (.str "expires") with
        | error e => rfl
        | ok expiresRaw =>
          dsimp only
          cases hp : parse_datetime expiresRaw with
          | error e => rfl
          | ok expires =>
            dsimp only
            have h3 := h2 expiresRaw expires hr hp
            by_cases hlt : expires.toSecs < issued_on.toSecs
            · rw [if_pos hlt, if_pos hlt]
            · rw [if_neg hlt, if_neg hlt]
              by_cases hen : expires.toSecs < now₁.toSecs
              · rw [if_pos hen, if_pos (h3.mp hen)]
              · rw [if_neg hen, if_neg (fun h => hen (h3.mpr h))]
      · rw [if_neg hexp, if_neg hexp]

/-- Witness for C5 (amended): two later clock readings that agree on the
comparisons give identical outcomes on the concrete assertion. -/
theorem c5_amended_clock_dependence_witness :
    assertion_timestamp_checks c5state c5meta ⟨2021, 1, 1, 0, 0, 0⟩ =
      assertion_timestamp_checks c5state c5meta ⟨2022, 1, 1, 0, 0, 0⟩ := by
  apply c5_amended_clock_dependence
  intro node_id assertion issued_on hts
  have hts' : timestampPrereqs c5state c5meta =
      .ok (Value.str "http://e/a1",
        [("id", Value.str "http://e/a1"),
         ("issuedOn", Value.str "2020-06-01T00:00:00Z")],
        (⟨2020, 6, 1, 0, 0, 0⟩ : PyDatetime)) := rfl
  have heq := hts'.symm.trans hts
  injection heq with htrip
  injection htrip with hn hrest
  injection hrest with ha hi
  subst hn
  subst ha
  subst hi
  constructor
  · decide
  · intro expiresRaw expires hr hp
    have hne : pyIndexValue
        [("id", Value.str "http://e/a1"),
         ("issuedOn", Value.str "2020-06-01T00:00:00Z")] (.str "expires") =
        .error PyErr.keyError := rfl
    rw [hne] at hr
    exact Except.noConfusion hr

/- ---------------------------------------------------------------------
C2 — sequential task ids under plain ADD_TASK sequences (amended part)
--------------------------------------------------------------------- -/

/-- An `ADD_TASK` action whose payload leaves the reducer-assigned fields
alone: no `task_id` and no `complete` key. -/
def plainAddTask (action : PyDict) : Bool :=
  pyGet action "type" == Value.str ADD_TASK &&
  !((pyKeys action).contains "task_id") &&
  !((pyKeys action).contains "complete")

/-- Fold a sequence of actions through the reducer from the empty queue. -/
def runAdds (actions : List PyDict) : Except PyErr (List PyDict) :=
  actions.foldlM (fun st a => task_reducer (some st) a) []

/-- The queue's `task_id` values in order. -/
def idsOf (st : List PyDict) : List Value :=
  st.map (fun t => pyGet t "task_id")

/-- The reachable-queue invariant: task ids are `1, 2, …, n` in order and
every task is incomplete. -/
def SeqInv (st : List PyDict) : Prop :=
  (∀ i (hi : i < st.length), pyGet st[i] "task_id" = Value.int (i + 1)) ∧
  (∀ i (hi : i < st.length), pyGet st[i] "complete" = Value.bool false)

theorem pyLookup_of_pyIndex {d : PyDict} {k : String} {v : Value}
    (h : pyIndex d k = .ok v) : pyLookup d k = some v := by
  unfold pyIndex at h
  cases hl : pyLookup d k with
  | none => rw [hl] at h; exact Except.noConfusion h
  | some w => rw [hl] at h; injection h with h; rw [h]

/-- When the last task's `task_id` is the (int) queue length, the reducer
step is the dispatch at counter `length + 1`. -/
theorem reducer_counter (st : List PyDict) (a : PyDict)
    (hlast : ∀ t, st.getLast? = some t →
      pyGet t "task_id" = Value.int (st.length : Int)) :
    task_reducer (some st) a =
      task_reducer_dispatch st ((st.length : Int) + 1) a := by
  have hred : task_reducer (some st) a =
      (match st.getLast? with
        | Option.none => task_reducer_dispatch [] 1 a
        | some last =>
          match pyLookup last "task_id" with
          | Option.none => Except.error PyErr.keyError
          | some (.int n) => task_reducer_dispatch st (n + 1) a
          | some (.bool b) =>
              task_reducer_dispatch st ((if b then 1 else 0) + 1) a
          | some _ => Except.error PyErr.typeError) := rfl
  rw [hred]
  cases hl : st.getLast? with
  | none =>
    have hnil : st = [] := List.getLast?_eq_none_iff.mp hl
    subst hnil
    norm_num
  | some t =>
    have hid := hlast t hl
    have hlook : pyLookup t "task_id" = some (Value.int (st.length : Int)) :=
      lookup_of_pyGet hid (by simp)
    dsimp only
    rw [hlook]

/-- The dispatch of a plain `ADD_TASK`: dropped when a duplicate exists,
else appended with the assigned `task_id` and `complete = false` intact. -/
theorem dispatch_plain_add (st : List PyDict) (c : Int) (a : PyDict)
    (ha : plainAddTask a = true) :
    task_reducer_dispatch st c a =
      if task_to_add_exists st a then .ok st
      else .ok (st ++ [copyPayload
        [("task_id", Value.int c), ("complete", Value.bool false)] a ["type"]]) := by
  have ha' := ha
  unfold plainAddTask at ha'
  rw [Bool.and_eq_true, Bool.and_eq_true] at ha'
  obtain ⟨⟨htype, _⟩, _⟩ := ha'
  have hteq : pyGet a "type" = Value.str ADD_TASK := (beq_str_iff _ _).mp htype
  by_cases hex : task_to_add_exists st a = true
  · have h1 : (pyGet a "type" == Value.str ADD_TASK && !task_to_add_exists st a) = false := by
      simp [htype, hex]
    have hr : (pyGet a "type" == Value.str RESOLVE_TASK) = false := by
      rw [hteq]; rfl
    have hu : (pyGet a "type" == Value.str UPDATE_TASK) = false := by
      rw [hteq]; rfl
    simp [task_reducer_dispatch, h1, hr, hu, hex]
  · have hexf : task_to_add_exists st a = false := by
      cases hb : task_to_add_exists st a
      · rfl
      · exact absurd hb hex
    simp [task_reducer_dispatch, htype, hexf]

/-- The assigned fields of a freshly appended plain `ADD_TASK` task. -/
theorem new_task_fields (c : Int) (a : PyDict) (ha : plainAddTask a = true) :
    pyGet (copyPayload
      [("task_id", Value.int c), ("complete", Value.bool false)] a ["type"])
      "task_id" = Value.int c ∧
    pyGet (copyPayload
      [("task_id", Value.int c), ("complete", Value.bool false)] a ["type"])
      "complete" = Value.bool false := by
  have ha' := ha
  unfold plainAddTask at ha'
  rw [Bool.and_eq_true, Bool.and_eq_true] at ha'
  obtain ⟨⟨_, hid⟩, hcomp⟩ := ha'
  have hidm : ¬ "task_id" ∈ pyKeys a := by simpa using hid
  have hcompm : ¬ "complete" ∈ pyKeys a := by simpa using hcomp
  constructor
  · apply pyGet_eq_of_lookup
    rw [pyLookup_copyPayload _ _ _ _ hidm]
    rfl
  · apply pyGet_eq_of_lookup
    rw [pyLookup_copyPayload _ _ _ _ hcompm]
    rfl

/-- One plain `ADD_TASK` step preserves the reachable-queue invariant. -/
theorem plain_add_step (st : List PyDict) (a : PyDict)
    (ha : plainAddTask a = true) (hinv : SeqInv st) :
    ∃ st', task_reducer (some st) a = .ok st' ∧ SeqInv st' := by
  have hlast : ∀ t, st.getLast? = some t →
      pyGet t "task_id" = Value.int (st.length : Int) := by
    intro t ht
    rw [List.getLast?_eq_getElem?] at ht
    obtain ⟨hlt, hel⟩ := List.getElem?_eq_some_iff.mp ht
    have hid := hinv.1 (st.length - 1) hlt
    rw [hel] at hid
    rw [hid]
    congr 1
    omega
  rw [reducer_counter st a hlast, dispatch_plain_add st _ a ha]
  by_cases hex : task_to_add_exists st a = true
  · rw [if_pos hex]
    exact ⟨st, rfl, hinv⟩
  · rw [if_neg hex]
    refine ⟨_, rfl, ?_, ?_⟩
    · intro i hi
      rw [List.length_append, List.length_singleton] at hi
      by_cases hilt : i < st.length
      · rw [List.getElem_append_left hilt]
        exact hinv.1 i hilt
      · have hieq : i = st.length := by omega
        subst hieq
        rw [List.getElem_append_right (Nat.le_refl _)]
        simp only [Nat.sub_self, List.getElem_singleton]
        rw [(new_task_fields _ a ha).1]
    · intro i hi
      rw [List.length_append, List.length_singleton] at hi
      by_cases hilt : i < st.length
      · rw [List.getElem_append_left hilt]
        exact hinv.2 i hilt
      · have hieq : i = st.length := by omega
        subst hieq
        rw [List.getElem_append_right (Nat.le_refl _)]
        simp only [Nat.sub_self, List.getElem_singleton]
        exact (new_task_fields _ a ha).2

/-- Folding plain `ADD_TASK` actions from an invariant-satisfying queue
succeeds and preserves the invariant. -/
theorem runAdds_aux (acts : List PyDict) (st : List PyDict)
    (h : ∀ a ∈ acts, plainAddTask a = true) (hinv : SeqInv st) :
    ∃ st', acts.foldlM (fun s a => task_reducer (some s) a) st = .ok st' ∧
      SeqInv st' := by
  induction acts generalizing st with
  | nil => exact ⟨st, rfl, hinv⟩
  | cons a as ih =>
    obtain ⟨st₁, hst₁, hinv₁⟩ :=
      plain_add_step st a (h a (List.mem_cons_self a as)) hinv
    obtain ⟨st', hst', hinv'⟩ :=
      ih st₁ (fun x hx => h x (List.mem_cons_of_mem a hx)) hinv₁
    refine ⟨st', ?_, hinv'⟩
    rw [List.foldlM_cons, hst₁]
    exact hst'

/-- C2 amended: starting from the empty queue, every sequence of `ADD_TASK`
actions whose payloads carry neither a `task_id` nor a `complete` key
yields (without raising) a queue whose task ids are exactly `1, 2, …, n`
in order — each appended task got `last id + 1 = max + 1` — and whose
tasks are all incomplete. -/
theorem c2_amended_sequential_ids (acts : List PyDict)
    (h : ∀ a ∈ acts, plainAddTask a = true) :
    ∃ st, runAdds acts = .ok st ∧
      idsOf st = (List.range st.length).map (fun i : Nat => Value.int (i + 1)) ∧
      ∀ t ∈ st, pyGet t "complete" = Value.bool false := by
  obtain ⟨st, hrun, hinv⟩ := runAdds_aux acts [] h
    ⟨fun i hi => absurd hi (Nat.not_lt_zero i), fun i hi => absurd hi (Nat.not_lt_zero i)⟩
  refine ⟨st, hrun, ?_, ?_⟩
  · apply List.ext_getElem
    · simp only [idsOf, List.length_map, List.length_range]
    · intro i h1 h2
      have hi : i < st.length := by
        simpa only [idsOf, List.length_map] using h1
      simp only [idsOf, List.getElem_map, List.getElem_range]
      exact hinv.1 i hi
  · intro t ht
    obtain ⟨i, hi, rfl⟩ := List.mem_iff_getElem.mp ht
    exact hinv.2 i hi

/-- Three plain `ADD_TASK` actions, the third a duplicate of the first. -/
def c2acts : List PyDict :=
  [[("type", Value.str ADD_TASK), ("name", Value.str VALIDATE_PROPERTY),
    ("node_id", Value.str "n1"), ("prop_name", Value.str "name")],
   [("type", Value.str ADD_TASK), ("name", Value.str VALIDATE_PROPERTY),
    ("node_id", Value.str "n1"), ("prop_name", Value.str "desc")],
   [("type", Value.str ADD_TASK), ("name", Value.str VALIDATE_PROPERTY),
    ("node_id", Value.str "n1"), ("prop_name", Value.str "name")]]

/-- Witness for C2 (amended) on a concrete action sequence with a dropped
duplicate. -/
theorem c2_amended_sequential_ids_witness :
    (∀ a ∈ c2acts, plainAddTask a = true) ∧
    ∃ st, runAdds c2acts = .ok st ∧
      idsOf st = (List.range st.length).map (fun i : Nat => Value.int (i + 1)) ∧
      ∀ t ∈ st, pyGet t "complete" = Value.bool false := by
  have hall : ∀ a ∈ c2acts, plainAddTask a = true := by
    intro a ha
    simp only [c2acts, List.mem_cons, List.not_mem_nil, or_false] at ha
    rcases ha with rfl | rfl | rfl <;> rfl
  exact ⟨hall, c2_amended_sequential_ids c2acts hall⟩

/- ---------------------------------------------------------------------
C3 — monotonicity of `complete` (amended part): helper lemmas
--------------------------------------------------------------------- -/

theorem pyIndex_pyGet {d : PyDict} {k : String} {v : Value}
    (h : pyIndex d k = .ok v) : pyGet d k = v :=
  pyGet_eq_of_lookup (pyLookup_of_pyIndex h)

/-- A successful comprehension pass is the `filter` over the `pyGet` ids. -/
theorem filterByTaskId_ok_eq (a : PyDict) :
    ∀ (st : List PyDict) (l : List PyDict), filterByTaskId a st = .ok l →
      l = st.filter (fun t => pyGet t "task_id" == pyGet a "task_id") := by
  intro st
  induction st with
  | nil =>
    intro l h
    injection h with h
    rw [← h]
    rfl
  | cons t rest ih =>
    intro l h
    unfold filterByTaskId at h
    cases htid : pyIndex t "task_id" with
    | error e => rw [htid] at h; simp [Bind.bind, Except.bind] at h
    | ok tid =>
      rw [htid] at h
      cases haid : pyIndex a "task_id" with
      | error e => simp [haid, Bind.bind, Except.bind] at h
      | ok aid =>
        rw [haid] at h
        cases hrest : filterByTaskId a rest with
        | error e => simp [hrest, Bind.bind, Except.bind] at h
        | ok r =>
          rw [hrest] at h
          simp only [Bind.bind, Except.bind, Pure.pure, Except.pure] at h
          injection h with h
          have hpt : pyGet t "task_id" = tid := pyIndex_pyGet htid
          have hpa : pyGet a "task_id" = aid := pyIndex_pyGet haid
          have ihr := ih r hrest
          rw [List.filter_cons, hpt, hpa]
          rw [hpa] at ihr
          rw [← h, ihr]

/-- A succeeding `[0]` head retrieval exposes the comprehension result. -/
theorem firstTaskById_ok {st : List PyDict} {a : PyDict} {task : PyDict}
    (h : firstTaskById st a = .ok task) :
    ∃ l, filterByTaskId a st = .ok (task :: l) := by
  unfold firstTaskById at h
  cases hf : filterByTaskId a st with
  | error e => simp [hf, Bind.bind, Except.bind] at h
  | ok l =>
    rw [hf] at h
    simp only [Bind.bind, Except.bind] at h
    cases l with
    | nil => exact Except.noConfusion h
    | cons x xs =>
      injection h with h
      exact ⟨xs, by rw [h]⟩

/-- When every task and the action carry a `task_id` key, the comprehension
raises no `KeyError`. -/
theorem filterByTaskId_isOk (a : PyDict) (st : List PyDict)
    (htid : ∀ t ∈ st, (pyLookup t "task_id").isSome = true)
    (haid : (pyLookup a "task_id").isSome = true) :
    ∃ l, filterByTaskId a st = .ok l := by
  induction st with
  | nil => exact ⟨[], rfl⟩
  | cons t rest ih =>
    obtain ⟨l, hl⟩ := ih (fun x hx => htid x (List.mem_cons_of_mem t hx))
    have ht := htid t (List.mem_cons_self t rest)
    obtain ⟨tid, htv⟩ := Option.isSome_iff_exists.mp ht
    obtain ⟨aid, hav⟩ := Option.isSome_iff_exists.mp haid
    have h1 : pyIndex t "task_id" = .ok tid := by unfold pyIndex; rw [htv]
    have h2 : pyIndex a "task_id" = .ok aid := by unfold pyIndex; rw [hav]
    refine ⟨if tid == aid then t :: l else l, ?_⟩
    unfold filterByTaskId
    simp only [h1, h2, hl, Bind.bind, Except.bind, Pure.pure, Except.pure]

/-- The fields of a `RESOLVE_TASK` update record. -/
theorem resolve_update_fields (task : PyDict) (a : PyDict) :
    pyGet (pySet (pySet (pySet task "complete" (Value.bool true))
        "success" (pyGet a "success")) "result" (pyGet a "result"))
      "complete" = Value.bool true ∧
    pyGet (pySet (pySet (pySet task "complete" (Value.bool true))
        "success" (pyGet a "success")) "result" (pyGet a "result"))
      "success" = pyGet a "success" ∧
    pyGet (pySet (pySet (pySet task "complete" (Value.bool true))
        "success" (pyGet a "success")) "result" (pyGet a "result"))
      "result" = pyGet a "result" := by
  refine ⟨?_, ?_, ?_⟩
  · apply pyGet_eq_of_lookup
    rw [pyLookup_pySet_of_ne _ _ _ _ (by decide),
      pyLookup_pySet_of_ne _ _ _ _ (by decide), pyLookup_pySet_self]
  · apply pyGet_eq_of_lookup
    rw [pyLookup_pySet_of_ne _ _ _ _ (by decide), pyLookup_pySet_self]
  · exact pyGet_eq_of_lookup (pyLookup_pySet_self _ _ _)

/-- In a filter result of length at most one, any member equals the head. -/
theorem filter_len_le_one_head_eq {p : PyDict → Bool} {st : List PyDict}
    (hlen : (st.filter p).length ≤ 1) {x y : PyDict} {l : List PyDict}
    (hf : st.filter p = x :: l) (hy : y ∈ st) (hpy : p y = true) : y = x := by
  have hyf : y ∈ st.filter p := List.mem_filter.mpr ⟨hy, hpy⟩
  rw [hf] at hyf hlen
  have hl : l = [] := by
    rw [List.length_cons] at hlen
    exact List.length_eq_zero.mp (by omega)
  subst hl
  simpa using hyf

/-- An `UPDATE_TASK` whose payload has no `complete` key preserves the
`complete` field. -/
theorem copyPayload_complete (task a : PyDict)
    (h : ¬ "complete" ∈ pyKeys a) :
    pyGet (copyPayload task a ["type", "task_id"]) "complete" =
      pyGet task "complete" := by
  unfold pyGet
  rw [pyLookup_copyPayload _ _ _ _ h]

theorem new_state_length (st : List PyDict) (iid : Value) (u : PyDict) :
    (new_state_with_updated_item st iid u).length = st.length := by
  simp [new_state_with_updated_item]

theorem new_state_getElem (st : List PyDict) (iid : Value) (u : PyDict)
    (i : Nat) (hi : i < st.length)
    (hi' : i < (new_state_with_updated_item st iid u).length) :
    (new_state_with_updated_item st iid u)[i] =
      if pyGet st[i] "task_id" == iid then u else st[i] := by
  simp [new_state_with_updated_item]

/-- The claim C3 property at the dispatch level: on a queue with pairwise
distinct task ids, any action that is not an `UPDATE_TASK` carrying a
`complete` payload key preserves `complete = true` positionally, and a
`RESOLVE_TASK` sets `complete`, `success` and `result` on the matched
task. -/
theorem c3_dispatch (st : List PyDict) (c : Int) (a : PyDict) (st' : List PyDict)
    (huniq : ∀ v : Value,
      (st.filter (fun t => pyGet t "task_id" == v)).length ≤ 1)
    (hnc : (pyGet a "type" == Value.str UPDATE_TASK &&
      (pyKeys a).contains "complete") = false)
    (hok : task_reducer_dispatch st c a = .ok st') :
    (∀ i (hi : i < st.length), pyGet st[i] "complete" = Value.bool true →
      ∃ hi' : i < st'.length, pyGet st'[i] "complete" = Value.bool true) ∧
    (pyGet a "type" = Value.str RESOLVE_TASK →
      (∀ t ∈ st, (pyLookup t "task_id").isSome = true) →
      (pyLookup a "task_id").isSome = true →
      ∀ i (hi : i < st.length),
        (pyGet st[i] "task_id" == pyGet a "task_id") = true →
        ∃ hi' : i < st'.length,
          pyGet st'[i] "complete" = Value.bool true ∧
          pyGet st'[i] "success" = pyGet a "success" ∧
          pyGet st'[i] "result" = pyGet a "result") := by
  unfold task_reducer_dispatch at hok
  by_cases h1 : (pyGet a "type" == Value.str ADD_TASK && !task_to_add_exists st a) = true
  · rw [if_pos h1] at hok
    injection hok with hok
    subst hok
    constructor
    · intro i hi hc
      have hi' : i < (st ++ [copyPayload
          [("task_id", Value.int c), ("complete", Value.bool false)] a ["type"]]).length := by
        rw [List.length_append, List.length_singleton]
        omega
      exact ⟨hi', by rw [List.getElem_append_left hi]; exact hc⟩
    · intro hres _ _ i hi hmatch
      rw [Bool.and_eq_true] at h1
      have hadd : pyGet a "type" = Value.str ADD_TASK := (beq_str_iff _ _).mp h1.1
      rw [hres] at hadd
      injection hadd with hs
      exact absurd hs (by decide)
  · rw [if_neg h1] at hok
    by_cases h2 : (pyGet a "type" == Value.str RESOLVE_TASK) = true
    · rw [if_pos h2] at hok
      cases hf : firstTaskById st a with
      | error e =>
        rw [hf] at hok
        cases e with
        | keyError =>
          dsimp only at hok
          injection hok with hok
          subst hok
          constructor
          · intro i hi hc
            exact ⟨hi, hc⟩
          · intro hres htid haid i hi hmatch
            obtain ⟨l, hl⟩ := filterByTaskId_isOk a st htid haid
            unfold firstTaskById at hf
            rw [hl] at hf
            simp only [Bind.bind, Except.bind] at hf
            cases l with
            | nil => injection hf with hf; exact PyErr.noConfusion hf
            | cons x xs => exact Except.noConfusion hf
        | indexError => exact Except.noConfusion hok
        | typeError => exact Except.noConfusion hok
        | valueError => exact Except.noConfusion hok
        | notImplementedError => exact Except.noConfusion hok
        | taskPrerequisitesError => exact Except.noConfusion hok
        | validationError m => exact Except.noConfusion hok
      | ok task0 =>
        rw [hf] at hok
        dsimp only at hok
        cases haid : pyIndex a "task_id" with
        | error e => simp [haid, Bind.bind, Except.bind] at hok
        | ok aid =>
          rw [haid] at hok
          simp only [Bind.bind, Except.bind] at hok
          injection hok with hok
          subst hok
          have hupd := resolve_update_fields task0 a
          constructor
          · intro i hi hc
            have hi' : i < (new_state_with_updated_item st aid
                (pySet (pySet (pySet task0 "complete" (Value.bool true))
                  "success" (pyGet a "success")) "result" (pyGet a "result"))).length := by
              rw [new_state_length]
              omega
            refine ⟨hi', ?_⟩
            rw [new_state_getElem st aid _ i hi hi']
            by_cases hm : (pyGet st[i] "task_id" == aid) = true
            · rw [if_pos hm]
              exact hupd.1
            · rw [if_neg (by simpa using hm)]
              exact hc
          · intro hres htid haid2 i hi hmatch
            have hpa : pyGet a "task_id" = aid := pyIndex_pyGet haid
            rw [hpa] at hmatch
            have hi' : i < (new_state_with_updated_item st aid
                (pySet (pySet (pySet task0 "complete" (Value.bool true))
                  "success" (pyGet a "success")) "result" (pyGet a "result"))).length := by
              rw [new_state_length]
              omega
            refine ⟨hi', ?_⟩
            rw [new_state_getElem st aid _ i hi hi', if_pos hmatch]
            exact hupd
    · rw [if_neg h2] at hok
      by_cases h3 : (pyGet a "type" == Value.str UPDATE_TASK) = true
      · rw [if_pos h3] at hok
        have hnoc : ¬ "complete" ∈ pyKeys a := by
          rw [h3, Bool.true_and] at hnc
          simpa using hnc
        cases hf : firstTaskById st a with
        | error e =>
          rw [hf] at hok
          cases e with
          | keyError =>
            dsimp only at hok
            injection hok with hok
            subst hok
            constructor
            · intro i hi hc
              exact ⟨hi, hc⟩
            · intro hres _ _ i hi hmatch
              exact absurd ((beq_str_iff _ _).mpr hres) h2
          | indexError => exact Except.noConfusion hok
          | typeError => exact Except.noConfusion hok
          | valueError => exact Except.noConfusion hok
          | notImplementedError => exact Except.noConfusion hok
          | taskPrerequisitesError => exact Except.noConfusion hok
          | validationError m => exact Except.noConfusion hok
        | ok task0 =>
          rw [hf] at hok
          dsimp only at hok
          cases haid : pyIndex a "task_id" with
          | error e => simp [haid, Bind.bind, Except.bind] at hok
          | ok aid =>
            rw [haid] at hok
            simp only [Bind.bind, Except.bind] at hok
            injection hok with hok
            subst hok
            constructor
            · intro i hi hc
              have hi' : i < (new_state_with_updated_item st aid
                  (copyPayload task0 a ["type", "task_id"])).length := by
                rw [new_state_length]
                omega
              refine ⟨hi', ?_⟩
              rw [new_state_getElem st aid _ i hi hi']
              by_cases hm : (pyGet st[i] "task_id" == aid) = true
              · rw [if_pos hm]
                obtain ⟨l0, hfl⟩ := firstTaskById_ok hf
                have hfe := filterByTaskId_ok_eq a st _ hfl
                have hpa : pyGet a "task_id" = aid := pyIndex_pyGet haid
                have hsti : st[i] = task0 := by
                  apply filter_len_le_one_head_eq (huniq (pyGet a "task_id")) hfe.symm
                    (List.getElem_mem hi)
                  rw [hpa]
                  exact hm
                rw [copyPayload_complete task0 a hnoc, ← hsti]
                exact hc
              · rw [if_neg (by simpa using hm)]
                exact hc
            · intro hres _ _ i hi hmatch
              exact absurd ((beq_str_iff _ _).mpr hres) h2
      · rw [if_neg h3] at hok
        injection hok with hok
        subst hok
        constructor
        · intro i hi hc
          exact ⟨hi, hc⟩
        · intro hres _ _ i hi hmatch
          exact absurd ((beq_str_iff _ _).mpr hres) h2

/-- C3 amended: on a queue with pairwise distinct task ids (the reachable
situation), `complete = true` is monotonic under every reducer action
except an `UPDATE_TASK` whose payload itself carries a `complete` key — in
particular `RESOLVE_TASK` only ever sets `complete` to true, and it sets
`success` and `result` from the action alongside that transition. -/
theorem c3_amended_complete_monotonic (st : List PyDict) (a : PyDict)
    (st' : List PyDict)
    (huniq : ∀ v : Value,
      (st.filter (fun t => pyGet t "task_id" == v)).length ≤ 1)
    (hnc : (pyGet a "type" == Value.str UPDATE_TASK &&
      (pyKeys a).contains "complete") = false)
    (hok : task_reducer (some st) a = .ok st') :
    (∀ i (hi : i < st.length), pyGet st[i] "complete" = Value.bool true →
      ∃ hi' : i < st'.length, pyGet st'[i] "complete" = Value.bool true) ∧
    (pyGet a "type" = Value.str RESOLVE_TASK →
      (∀ t ∈ st, (pyLookup t "task_id").isSome = true) →
      (pyLookup a "task_id").isSome = true →
      ∀ i (hi : i < st.length),
        (pyGet st[i] "task_id" == pyGet a "task_id") = true →
        ∃ hi' : i < st'.length,
          pyGet st'[i] "complete" = Value.bool true ∧
          pyGet st'[i] "success" = pyGet a "success" ∧
          pyGet st'[i] "result" = pyGet a "result") := by
  have hred : task_reducer (some st) a =
      (match st.getLast? with
        | Option.none => task_reducer_dispatch [] 1 a
        | some last =>
          match pyLookup last "task_id" with
          | Option.none => Except.error PyErr.keyError
          | some (.int n) => task_reducer_dispatch st (n + 1) a
          | some (.bool b) =>
              task_reducer_dispatch st ((if b then 1 else 0) + 1) a
          | some _ => Except.error PyErr.typeError) := rfl
  rw [hred] at hok
  cases hlast : st.getLast? with
  | none =>
    have hnil : st = [] := List.getLast?_eq_none_iff.mp hlast
    subst hnil
    exact ⟨fun i hi => absurd hi (Nat.not_lt_zero i),
      fun _ _ _ i hi => absurd hi (Nat.not_lt_zero i)⟩
  | some last =>
    rw [hlast] at hok
    dsimp only at hok
    cases hlook : pyLookup last "task_id" with
    | none => rw [hlook] at hok; exact Except.noConfusion hok
    | some v =>
      rw [hlook] at hok
      cases v with
      | int n => exact c3_dispatch st (n + 1) a st' huniq hnc hok
      | bool b => exact c3_dispatch st _ a st' huniq hnc hok
      | none => exact Except.noConfusion hok
      | str s => exact Except.noConfusion hok
      | list vs => exact Except.noConfusion hok
      | method => exact Except.noConfusion hok

/-- A one-task queue whose task is complete. -/
def c3state1 : List PyDict :=
  [[("task_id", Value.int 1), ("complete", Value.bool true),
    ("success", Value.bool true), ("result", Value.str "ok")]]

/-- An `UPDATE_TASK` on that task whose payload has no `complete` key. -/
def c3action1 : PyDict :=
  [("type", Value.str UPDATE_TASK), ("task_id", Value.int 1),
   ("node_id", Value.str "n9")]

/-- The updated queue: the payload field is added, `complete` untouched. -/
def c3state1' : List PyDict :=
  [[("task_id", Value.int 1), ("complete", Value.bool true),
    ("success", Value.bool true), ("result", Value.str "ok"),
    ("node_id", Value.str "n9")]]

/-- Witness for C3 (amended): the concrete `UPDATE_TASK` without a
`complete` key leaves the completed task complete. -/
theorem c3_amended_complete_monotonic_witness :
    task_reducer (some c3state1) c3action1 = .ok c3state1' ∧
    ∃ hi' : 0 < c3state1'.length,
      pyGet c3state1'[0] "complete" = Value.bool true := by
  have hok : task_reducer (some c3state1) c3action1 = .ok c3state1' := rfl
  have huniq : ∀ v : Value,
      (c3state1.filter (fun t => pyGet t "task_id" == v)).length ≤ 1 := by
    intro v
    simpa [c3state1] using
      List.length_filter_le (fun t => pyGet t "task_id" == v) c3state1
  refine ⟨hok, ?_⟩
  exact (c3_amended_complete_monotonic c3state1 c3action1 c3state1'
    huniq rfl hok).1 0 (by decide) rfl

end Badgecheck
